import Mathlib

/-!
# Register access layer of the Nilan controller driver

A shallow embedding of `controller.go` and `nilan.go`.

* The Modbus transport (`github.com/goburrow/modbus`) is an external collaborator.  It is
  modelled as an arbitrary deterministic state machine `Transport σ`: every method takes the
  device/link state and returns the next state with its reply.
* Every method call the controller makes on the transport is recorded in an explicit trace of
  `Event`s, in the order the Go code makes them.
* Go's `panic` is modelled by the `Outcome.panicked` constructor.
* `uint16` values are natural numbers; a payload is a list of bytes (`Fin 256`).
-/

set_option autoImplicit false

namespace Nilan

/-! ## Basic types -/

/-- Go's `type Register uint16`: the address of a register on the device. -/
abbrev Register := Nat

/-- One byte of a transport payload. -/
abbrev Byte := Fin 256

/-- A non-nil Go `error` value.  `transport code` stands for any error produced by the
transport library; the other two are the values built by `errors.New` in `controller.go`. -/
inductive Error where
  | transport (code : Nat)
  | cannotReadRegisterValue
  | noResultBytes
  deriving DecidableEq, Repr

/-- The two register banks of the protocol. -/
inductive Bank where
  | input
  | holding
  deriving DecidableEq, Repr

/-- The reply of a transport read or write: `(results []byte, err error)`. -/
inductive Reply where
  | ok (bytes : List Byte)
  | err (e : Error)
  deriving DecidableEq, Repr

/-- A method call made by the controller on the transport. -/
inductive Event where
  | connect
  | read (bank : Bank) (address : Nat) (quantity : Nat)
  | write (address : Nat) (value : Nat)
  | close
  deriving DecidableEq, Repr

/-- How a Go function call ends: it returns a value or it panics. -/
inductive Outcome (α : Type) where
  | returned (a : α)
  | panicked (e : Error)
  deriving DecidableEq, Repr

/-- The transport as a deterministic state machine over a link/device state `σ`.
`connect` is `handler.Connect()`, the two reads are `client.ReadInputRegisters` and
`client.ReadHoldingRegisters`, `writeSingleRegister` is `client.WriteSingleRegister`
and `close` is `handler.Close()` (whose result the deferred call drops). -/
structure Transport (σ : Type) where
  connect : σ → σ × Option Error
  readInputRegisters : σ → Nat → Nat → σ × Reply
  readHoldingRegisters : σ → Nat → Nat → σ × Reply
  writeSingleRegister : σ → Nat → Nat → σ × Reply
  close : σ → σ

/-- The read method of the client for a bank. -/
def Transport.readRegisters {σ : Type} (t : Transport σ) : Bank → σ → Nat → Nat → σ × Reply
  | Bank.input => t.readInputRegisters
  | Bank.holding => t.readHoldingRegisters

/-- The result of running one controller operation: the final transport state, the calls made
on the transport in order, and how the operation ended. -/
structure Run (σ : Type) (α : Type) where
  final : σ
  trace : List Event
  outcome : Outcome α

/-! ## The Go map `map[Register]uint16` -/

/-- A Go `map[Register]uint16` as an association list with unique keys. -/
abbrev RegMap := List (Register × Nat)

/-- Go's `m[register] = word`: replaces the entry of `register` or adds one. -/
def RegMap.set (m : RegMap) (register : Register) (word : Nat) : RegMap :=
  (register, word) :: m.filter (fun p => p.1 != register)

/-- Go's `m[register]` in an expression: the stored word, or the zero value when absent. -/
def RegMap.get (m : RegMap) (register : Register) : Nat :=
  (m.lookup register).getD 0

/-- Go's `binary.BigEndian.Uint16`, used by the controller on payloads of length 2 only. -/
def bigEndianUint16 : List Byte → Nat
  | hi :: lo :: _ => hi.val * 256 + lo.val
  | _ => 0

/-! ## Connection and single-register reads (`controller.go` lines 17-64) -/

/-- The body shared by `FetchInputValue` and `FetchHoldingValue`, which differ only in the
client method they call.  `getHandler` connects and panics when `Connect` fails (before the
`defer handler.Close()` is registered); otherwise one register is read and the deferred close
runs on every return. -/
def fetchValue {σ : Type} (t : Transport σ) (bank : Bank) (s : σ) (register : Register) :
    Run σ (Nat × Option Error) :=
  match t.connect s with
  | (s0, some e) => { final := s0, trace := [Event.connect], outcome := Outcome.panicked e }
  | (s0, none) =>
    match t.readRegisters bank s0 register 1 with
    | (s1, Reply.err e) =>
      { final := t.close s1
        trace := [Event.connect, Event.read bank register 1, Event.close]
        outcome := Outcome.returned (0, some e) }
    | (s1, Reply.ok resultBytes) =>
      if resultBytes.length = 2 then
        { final := t.close s1
          trace := [Event.connect, Event.read bank register 1, Event.close]
          outcome := Outcome.returned (bigEndianUint16 resultBytes, none) }
      else
        { final := t.close s1
          trace := [Event.connect, Event.read bank register 1, Event.close]
          outcome := Outcome.returned (0, some Error.cannotReadRegisterValue) }

/-- `Controller.FetchInputValue`. -/
def FetchInputValue {σ : Type} (t : Transport σ) (s : σ) (register : Register) :
    Run σ (Nat × Option Error) :=
  fetchValue t Bank.input s register

/-- `Controller.FetchHoldingValue`. -/
def FetchHoldingValue {σ : Type} (t : Transport σ) (s : σ) (register : Register) :
    Run σ (Nat × Option Error) :=
  fetchValue t Bank.holding s register

/-! ## Batch reads (`controller.go` lines 67-112) -/

/-- The `for _, register := range registers` loop of `FetchHoldingValues` and
`FetchInputRegisterValues`, started with the map `m`.  Returns the transport state, the reads
issued and the `(m, err)` pair the function returns. -/
def readLoop {σ : Type} (t : Transport σ) (bank : Bank) :
    List Register → σ → RegMap → σ × List Event × (RegMap × Option Error)
  | [], s, m => (s, [], (m, none))
  | register :: rest, s, m =>
    match t.readRegisters bank s register 1 with
    | (s1, Reply.err e) => (s1, [Event.read bank register 1], (m, some e))
    | (s1, Reply.ok resultBytes) =>
      if resultBytes.length = 2 then
        match readLoop t bank rest s1 (m.set register (bigEndianUint16 resultBytes)) with
        | (s2, reads, result) => (s2, Event.read bank register 1 :: reads, result)
      else
        (s1, [Event.read bank register 1], (m, some Error.noResultBytes))

/-- The body shared by `FetchHoldingValues` and `FetchInputRegisterValues`. -/
def fetchValues {σ : Type} (t : Transport σ) (bank : Bank) (s : σ) (registers : List Register) :
    Run σ (RegMap × Option Error) :=
  match t.connect s with
  | (s0, some e) => { final := s0, trace := [Event.connect], outcome := Outcome.panicked e }
  | (s0, none) =>
    match readLoop t bank registers s0 [] with
    | (s1, reads, result) =>
      { final := t.close s1
        trace := Event.connect :: reads ++ [Event.close]
        outcome := Outcome.returned result }

/-- `Controller.FetchHoldingValues`. -/
def FetchHoldingValues {σ : Type} (t : Transport σ) (s : σ) (registers : List Register) :
    Run σ (RegMap × Option Error) :=
  fetchValues t Bank.holding s registers

/-- `Controller.FetchInputRegisterValues`. -/
def FetchInputRegisterValues {σ : Type} (t : Transport σ) (s : σ) (registers : List Register) :
    Run σ (RegMap × Option Error) :=
  fetchValues t Bank.input s registers

/-! ## Writes (`controller.go` lines 115-127) -/

/-- The `for register, value := range values` loop of `SetRegisterValues`.  Go visits the
entries of a map in an unspecified order, so the loop takes the entries in the order visited. -/
def writeLoop {σ : Type} (t : Transport σ) :
    List (Register × Nat) → σ → σ × List Event × Option Error
  | [], s => (s, [], none)
  | (register, value) :: rest, s =>
    match t.writeSingleRegister s register value with
    | (s1, Reply.err e) => (s1, [Event.write register value], some e)
    | (s1, Reply.ok _) =>
      match writeLoop t rest s1 with
      | (s2, writes, result) => (s2, Event.write register value :: writes, result)

/-- `Controller.SetRegisterValues`; `visited` lists the entries of the `values` map in the
order the `range` loop visits them. -/
def SetRegisterValues {σ : Type} (t : Transport σ) (s : σ) (visited : List (Register × Nat)) :
    Run σ (Option Error) :=
  match t.connect s with
  | (s0, some e) => { final := s0, trace := [Event.connect], outcome := Outcome.panicked e }
  | (s0, none) =>
    match writeLoop t visited s0 with
    | (s1, writes, result) =>
      { final := t.close s1
        trace := Event.connect :: writes ++ [Event.close]
        outcome := Outcome.returned result }

/-! ## The register catalog (`controller.go` lines 132-226) -/

/-! Input registers -/

def AirFilter : Register := 101
def DoorOpen : Register := 102
def FireSmoke : Register := 103
def FrostOverHeat : Register := 105
def HighPressure : Register := 106
def BoilWater : Register := 107
def Defrost : Register := 112
def T0Controller : Register := 200
def T1InTakeTemp : Register := 201
def T2InletTemp : Register := 202
def T3ExhaustTemp : Register := 203
def T4OutletTemp : Register := 204
def T5CondTemp : Register := 205
def T6EvapTemp : Register := 206
def T7InletTemp : Register := 207
def T8OutdoorTemp : Register := 208
def T9HeaterTemp : Register := 209
def T10ExtTemp : Register := 210
def T11HotWaterTopTemp : Register := 211
def T12HotWaterBottomTemp : Register := 212
def T13ReturnTemp : Register := 213
def T14SupplyTemp : Register := 214
def T15RoomTemp : Register := 215
def RelativeHumidity : Register := 221
def CO2 : Register := 222
def AlarmStatus : Register := 400
def AlarmID1 : Register := 401
def AlarmID2 : Register := 404
def AlarmID3 : Register := 407
def ControlRunAct : Register := 1000
def ControlModeAct : Register := 1001
def ControlState : Register := 1002
def ControlSecInState : Register := 1003
def VentSetAct : Register := 1100
def InletAct : Register := 1101
def ExhaustAct : Register := 1102
def SinceFiltDay : Register := 1103
def ToFiltDay : Register := 1104
def IsSummer : Register := 1200
def TemperatureSet : Register := 1201
def TempControl : Register := 1202
def TempRoom : Register := 1203
def Efficiency : Register := 1204
def RequestedCapacity : Register := 1205
def ActualCapacity : Register := 1206
def HotWaterType : Register := 1700
def HotWaterAnodeState : Register := 1701
def DisplayLed1 : Register := 2000
def DisplayLed2 : Register := 2001
def HeatExtSet : Register := 2100

/-! Holding registers -/

def Compressor : Register := 109
def WatherHeat : Register := 116
def CenCircPump : Register := 118
def CenHeat1 : Register := 119
def CenHeat2 : Register := 120
def CenHeat3 : Register := 121
def CenHeatExt : Register := 122
def Defrosting : Register := 125
def ExhaustFanSpeed : Register := 200
def InletFanSpeed : Register := 201
def AirHeatCap : Register := 202
def CenHeatCap : Register := 203
def CompresorCap : Register := 204
def ControlRunSet : Register := 1001
def ControlModeSet : Register := 1002
def ControlVentSet : Register := 1003
def ControlTempSet : Register := 1004
def CoolVent : Register := 1101
def CoolSet : Register := 1200
def SummerTempMin : Register := 1201
def WinterTempMin : Register := 1202
def SummerTempMax : Register := 1203
def WinterTempMax : Register := 1204
def SummerTempLimit : Register := 1205
def HotWaterTempElectricT11 : Register := 1700
def HotWaterTempCompressorT12 : Register := 1701

/-- The constants declared under the `//Input registers` heading of the catalog. -/
def inputBank : List Register :=
  [AirFilter, DoorOpen, FireSmoke, FrostOverHeat, HighPressure, BoilWater, Defrost, T0Controller,
   T1InTakeTemp, T2InletTemp, T3ExhaustTemp, T4OutletTemp, T5CondTemp, T6EvapTemp, T7InletTemp,
   T8OutdoorTemp, T9HeaterTemp, T10ExtTemp, T11HotWaterTopTemp, T12HotWaterBottomTemp,
   T13ReturnTemp, T14SupplyTemp, T15RoomTemp, RelativeHumidity, CO2, AlarmStatus, AlarmID1,
   AlarmID2, AlarmID3, ControlRunAct, ControlModeAct, ControlState, ControlSecInState,
   VentSetAct, InletAct, ExhaustAct, SinceFiltDay, ToFiltDay, IsSummer, TemperatureSet,
   TempControl, TempRoom, Efficiency, RequestedCapacity, ActualCapacity, HotWaterType,
   HotWaterAnodeState, DisplayLed1, DisplayLed2, HeatExtSet]

/-- The constants declared under the `//Holding registers` heading of the catalog. -/
def holdingBank : List Register :=
  [Compressor, WatherHeat, CenCircPump, CenHeat1, CenHeat2, CenHeat3, CenHeatExt, Defrosting,
   ExhaustFanSpeed, InletFanSpeed, AirHeatCap, CenHeatCap, CompresorCap, ControlRunSet,
   ControlModeSet, ControlVentSet, ControlTempSet, CoolVent, CoolSet, SummerTempMin,
   WinterTempMin, SummerTempMax, WinterTempMax, SummerTempLimit, HotWaterTempElectricT11,
   HotWaterTempCompressorT12]

/-! ## Domain snapshots (`nilan.go`) -/

/-- Go's `type FanSpeed uint16`. -/
abbrev FanSpeed := Nat

/-- Go's `type ModeSet uint16`. -/
abbrev ModeSet := Nat

/-- Settings of the Nilan system (`type Settings struct`).
Fields of Go type `int16` and `int` are integers. -/
structure Settings where
  ControlRunSet : Int
  ModeSet : Nilan.ModeSet
  FanSpeed : Nilan.FanSpeed
  RequestedTemperature : Int
  CoolVent : Nilan.FanSpeed
  CoolTemperature : Int
  deriving DecidableEq, Repr

/-- The holding-register snapshot (`type ReadingHoldings struct`).
Fields of Go type `int16` and `int` are integers. -/
structure ReadingHoldings where
  Compressor : Int
  WatherHeat : Int
  CenCircPump : Int
  CenHeat1 : Int
  CenHeat2 : Int
  CenHeat3 : Int
  CenHeatExt : Int
  Defrosting : Int
  ExhaustFanSpeed : Int
  InletFanSpeed : Int
  AirHeatCap : Int
  CenHeatCap : Int
  CompresorCap : Int
  ControlRunSet : Int
  ControlModeSet : Int
  ControlVentSet : Int
  ControlTempSet : Int
  CoolVent : Int
  CoolSet : Int
  SummerTempMin : Int
  WinterTempMin : Int
  SummerTempMax : Int
  WinterTempMax : Int
  SummerTempLimit : Int
  HotWaterTempElectricT11 : Int
  HotWaterTempCompressorT12 : Int

/-- Readings from the Nilan sensors (`type Readings struct`).
Fields of Go type `int16` and `int` are integers. -/
structure Readings where
  T0Controller : Int
  T1InTakeTemp : Int
  T2InletTemp : Int
  T3ExhaustTemp : Int
  T4OutletTemp : Int
  T5CondTemp : Int
  T6EvapTemp : Int
  T7InletTemp : Int
  T8OutdoorTemp : Int
  T9HeaterTemp : Int
  T10ExtTemp : Int
  T11HotWaterTopTemp : Int
  T12HotWaterBottomTemp : Int
  T13ReturnTemp : Int
  T14SupplyTemp : Int
  T15RoomTemp : Int
  RelativeHumidity : Int
  CO2 : Int
  AlarmStatus : Int
  AlarmID1 : Int
  AlarmID2 : Int
  AlarmID3 : Int
  ControlRunAct : Int
  ControlModeAct : Int
  ControlState : Int
  ControlSecInState : Int
  VentSetAct : Int
  InletAct : Int
  ExhaustAct : Int
  SinceFiltDay : Int
  ToFiltDay : Int
  IsSummer : Int
  TemperatureSet : Int
  TempControl : Int
  TempRoom : Int
  Efficiency : Int
  RequestedCapacity : Int
  ActualCapacity : Int
  HotWaterType : Int
  HotWaterAnodeState : Int
  DisplayLed1 : Int
  DisplayLed2 : Int
  HeatExtSet : Int

/-- The error flags (`type Errors struct`). -/
structure Errors where
  OldFilterWarning : Bool
  OtherErrors : Bool
  deriving DecidableEq, Repr

/-! ## Snapshot fetches (`controller.go` lines 229-449) -/

/-- Go's conversion `int16(x)` of a `uint16`: the same 16 bits read as two's complement,
that is the low 15 bits minus the weight `2^15` of the sign bit. -/
def int16 (x : Nat) : Int :=
  Int.ofNat (x % 32768) - Int.ofNat (x / 32768 % 2) * 32768

/-- The register list `holdingRegisters` of `FetchHoldingRegisters`. -/
def FetchHoldingRegisters.holdingRegisters : List Register :=
  [Compressor, WatherHeat, CenCircPump, CenHeat1, CenHeat2, CenHeat3, CenHeatExt, Defrosting,
   ExhaustFanSpeed, InletFanSpeed, AirHeatCap, CenHeatCap, CompresorCap, ControlRunSet,
   ControlModeSet, ControlVentSet, ControlTempSet, CoolVent, CoolSet, SummerTempMin,
   WinterTempMin, SummerTempMax, WinterTempMax, SummerTempLimit, HotWaterTempElectricT11,
   HotWaterTempCompressorT12]

/-- The struct literal `readings` of `FetchHoldingRegisters`, built from the raw
words `holdingRegistersValues`. -/
def FetchHoldingRegisters.readings (holdingRegistersValues : RegMap) : ReadingHoldings where
  Compressor := Int.ofNat (holdingRegistersValues.get Compressor)
  WatherHeat := Int.ofNat (holdingRegistersValues.get WatherHeat)
  CenCircPump := Int.ofNat (holdingRegistersValues.get CenCircPump)
  CenHeat1 := Int.ofNat (holdingRegistersValues.get CenHeat1)
  CenHeat2 := Int.ofNat (holdingRegistersValues.get CenHeat2)
  CenHeat3 := Int.ofNat (holdingRegistersValues.get CenHeat3)
  CenHeatExt := Int.ofNat (holdingRegistersValues.get CenHeatExt)
  Defrosting := Int.ofNat (holdingRegistersValues.get Defrosting)
  ExhaustFanSpeed := Int.ofNat (holdingRegistersValues.get ExhaustFanSpeed)
  InletFanSpeed := Int.ofNat (holdingRegistersValues.get InletFanSpeed)
  AirHeatCap := Int.ofNat (holdingRegistersValues.get AirHeatCap)
  CenHeatCap := Int.ofNat (holdingRegistersValues.get CenHeatCap)
  CompresorCap := Int.ofNat (holdingRegistersValues.get CompresorCap)
  ControlRunSet := Int.ofNat (holdingRegistersValues.get ControlRunSet)
  ControlModeSet := Int.ofNat (holdingRegistersValues.get ControlModeSet)
  ControlVentSet := Int.ofNat (holdingRegistersValues.get ControlVentSet)
  ControlTempSet := int16 (holdingRegistersValues.get ControlTempSet)
  CoolVent := Int.ofNat (holdingRegistersValues.get CoolVent)
  CoolSet := Int.ofNat (holdingRegistersValues.get CoolSet)
  SummerTempMin := int16 (holdingRegistersValues.get SummerTempMin)
  WinterTempMin := int16 (holdingRegistersValues.get WinterTempMin)
  SummerTempMax := int16 (holdingRegistersValues.get SummerTempMax)
  WinterTempMax := int16 (holdingRegistersValues.get WinterTempMax)
  SummerTempLimit := int16 (holdingRegistersValues.get SummerTempLimit)
  HotWaterTempElectricT11 := int16 (holdingRegistersValues.get HotWaterTempElectricT11)
  HotWaterTempCompressorT12 := int16 (holdingRegistersValues.get HotWaterTempCompressorT12)

/-- The register list `inputRegisters` of `FetchReadings`. -/
def FetchReadings.inputRegisters : List Register :=
  [T0Controller, T1InTakeTemp, T2InletTemp, T3ExhaustTemp, T4OutletTemp, T5CondTemp, T6EvapTemp,
   T7InletTemp, T8OutdoorTemp, T9HeaterTemp, T10ExtTemp, T11HotWaterTopTemp,
   T12HotWaterBottomTemp, T13ReturnTemp, T14SupplyTemp, T15RoomTemp, RelativeHumidity, CO2,
   AlarmStatus, AlarmID1, AlarmID2, AlarmID3, ControlRunAct, ControlModeAct, ControlState,
   ControlSecInState, VentSetAct, InletAct, ExhaustAct, SinceFiltDay, ToFiltDay, IsSummer,
   TemperatureSet, TempControl, TempRoom, Efficiency, RequestedCapacity, ActualCapacity,
   HotWaterType, HotWaterAnodeState, DisplayLed1, DisplayLed2, HeatExtSet]

/-- The struct literal `readings` of `FetchReadings`, built from the raw words
`inputRegistersReadingsRaw`. -/
def FetchReadings.readings (inputRegistersReadingsRaw : RegMap) : Readings where
  T0Controller := int16 (inputRegistersReadingsRaw.get T0Controller)
  T1InTakeTemp := int16 (inputRegistersReadingsRaw.get T1InTakeTemp)
  T2InletTemp := int16 (inputRegistersReadingsRaw.get T2InletTemp)
  T3ExhaustTemp := int16 (inputRegistersReadingsRaw.get T3ExhaustTemp)
  T4OutletTemp := int16 (inputRegistersReadingsRaw.get T4OutletTemp)
  T5CondTemp := int16 (inputRegistersReadingsRaw.get T5CondTemp)
  T6EvapTemp := int16 (inputRegistersReadingsRaw.get T6EvapTemp)
  T7InletTemp := int16 (inputRegistersReadingsRaw.get T7InletTemp)
  T8OutdoorTemp := int16 (inputRegistersReadingsRaw.get T8OutdoorTemp)
  T9HeaterTemp := int16 (inputRegistersReadingsRaw.get T9HeaterTemp)
  T10ExtTemp := int16 (inputRegistersReadingsRaw.get T10ExtTemp)
  T11HotWaterTopTemp := int16 (inputRegistersReadingsRaw.get T11HotWaterTopTemp)
  T12HotWaterBottomTemp := int16 (inputRegistersReadingsRaw.get T12HotWaterBottomTemp)
  T13ReturnTemp := int16 (inputRegistersReadingsRaw.get T13ReturnTemp)
  T14SupplyTemp := int16 (inputRegistersReadingsRaw.get T14SupplyTemp)
  T15RoomTemp := int16 (inputRegistersReadingsRaw.get T15RoomTemp)
  RelativeHumidity := int16 (inputRegistersReadingsRaw.get RelativeHumidity)
  CO2 := int16 (inputRegistersReadingsRaw.get CO2)
  AlarmStatus := Int.ofNat (inputRegistersReadingsRaw.get AlarmStatus)
  AlarmID1 := Int.ofNat (inputRegistersReadingsRaw.get AlarmID1)
  AlarmID2 := Int.ofNat (inputRegistersReadingsRaw.get AlarmID2)
  AlarmID3 := Int.ofNat (inputRegistersReadingsRaw.get AlarmID3)
  ControlRunAct := Int.ofNat (inputRegistersReadingsRaw.get ControlRunAct)
  ControlModeAct := Int.ofNat (inputRegistersReadingsRaw.get ControlModeAct)
  ControlState := Int.ofNat (inputRegistersReadingsRaw.get ControlState)
  ControlSecInState := Int.ofNat (inputRegistersReadingsRaw.get ControlSecInState)
  VentSetAct := Int.ofNat (inputRegistersReadingsRaw.get VentSetAct)
  InletAct := Int.ofNat (inputRegistersReadingsRaw.get InletAct)
  ExhaustAct := Int.ofNat (inputRegistersReadingsRaw.get ExhaustAct)
  SinceFiltDay := Int.ofNat (inputRegistersReadingsRaw.get SinceFiltDay)
  ToFiltDay := Int.ofNat (inputRegistersReadingsRaw.get ToFiltDay)
  IsSummer := Int.ofNat (inputRegistersReadingsRaw.get IsSummer)
  TemperatureSet := int16 (inputRegistersReadingsRaw.get TemperatureSet)
  TempControl := int16 (inputRegistersReadingsRaw.get TempControl)
  TempRoom := int16 (inputRegistersReadingsRaw.get TempRoom)
  Efficiency := int16 (inputRegistersReadingsRaw.get Efficiency)
  RequestedCapacity := int16 (inputRegistersReadingsRaw.get RequestedCapacity)
  ActualCapacity := int16 (inputRegistersReadingsRaw.get ActualCapacity)
  HotWaterType := Int.ofNat (inputRegistersReadingsRaw.get HotWaterType)
  HotWaterAnodeState := Int.ofNat (inputRegistersReadingsRaw.get HotWaterAnodeState)
  DisplayLed1 := Int.ofNat (inputRegistersReadingsRaw.get DisplayLed1)
  DisplayLed2 := Int.ofNat (inputRegistersReadingsRaw.get DisplayLed2)
  HeatExtSet := int16 (inputRegistersReadingsRaw.get HeatExtSet)

/-- The register list `registers` of `FetchErrors`. -/
def FetchErrors.registers : List Register :=
  [AirFilter, DoorOpen, FireSmoke, FrostOverHeat, HighPressure, BoilWater, Defrost]

/-- The register list `registers` of `FetchSettings`. -/
def FetchSettings.registers : List Register :=
  [ControlModeSet, ControlVentSet, ControlTempSet, CoolVent, CoolSet]

/-- The struct literal `settings` of `FetchSettings`; `ControlRunSet` is not named in the
literal and keeps Go's zero value. -/
def FetchSettings.settings (readings : RegMap) : Settings where
  ControlRunSet := 0
  ModeSet := readings.get ControlModeSet
  FanSpeed := readings.get ControlVentSet
  RequestedTemperature := int16 (readings.get ControlTempSet)
  CoolVent := readings.get CoolVent
  CoolTemperature := int16 (readings.get CoolSet)

/-- The flags computed by `FetchErrors` from the raw words `readings`; the `doorOpen` line is
commented out in the source. -/
def FetchErrors.errors (readings : RegMap) : Errors :=
  let airFilter := decide (Int.ofNat (readings.get AirFilter) = 1)
  let fireSmoke := decide (Int.ofNat (readings.get FireSmoke) = 1)
  let frostOverHeat := decide (Int.ofNat (readings.get FrostOverHeat) = 1)
  let highPressure := decide (Int.ofNat (readings.get HighPressure) = 1)
  let boilWater := decide (Int.ofNat (readings.get BoilWater) = 1)
  let defrost := decide (Int.ofNat (readings.get Defrost) = 1)
  let otherErrors := fireSmoke || frostOverHeat || highPressure || boilWater || defrost
  { OldFilterWarning := airFilter, OtherErrors := otherErrors }

/-- The tail shared by the four snapshot fetches: `if err != nil { return nil, err }`, else the
snapshot built from the raw words and a nil error.  A panic of the batch read propagates. -/
def snapshotOf {σ α : Type} (build : RegMap → α) (run : Run σ (RegMap × Option Error)) :
    Run σ (Option α × Option Error) :=
  match run.outcome with
  | Outcome.panicked e =>
    { final := run.final, trace := run.trace, outcome := Outcome.panicked e }
  | Outcome.returned (_, some e1) =>
    { final := run.final, trace := run.trace, outcome := Outcome.returned (none, some e1) }
  | Outcome.returned (raw, none) =>
    { final := run.final, trace := run.trace, outcome := Outcome.returned (some (build raw), none) }

/-- `Controller.FetchHoldingRegisters`. -/
def FetchHoldingRegisters {σ : Type} (t : Transport σ) (s : σ) :
    Run σ (Option ReadingHoldings × Option Error) :=
  snapshotOf FetchHoldingRegisters.readings
    (FetchHoldingValues t s FetchHoldingRegisters.holdingRegisters)

/-- `Controller.FetchReadings`. -/
def FetchReadings {σ : Type} (t : Transport σ) (s : σ) :
    Run σ (Option Readings × Option Error) :=
  snapshotOf FetchReadings.readings (FetchInputRegisterValues t s FetchReadings.inputRegisters)

/-- `Controller.FetchErrors`. -/
def FetchErrors {σ : Type} (t : Transport σ) (s : σ) : Run σ (Option Errors × Option Error) :=
  snapshotOf FetchErrors.errors (FetchInputRegisterValues t s FetchErrors.registers)

/-- `Controller.FetchSettings`: the registers are read with `FetchInputRegisterValues`. -/
def FetchSettings {σ : Type} (t : Transport σ) (s : σ) :
    Run σ (Option Settings × Option Error) :=
  snapshotOf FetchSettings.settings (FetchInputRegisterValues t s FetchSettings.registers)

/-! ## Describing a run of the transport -/

/-- The reads of `registers`, issued one after the other on `bank` from state `s`, all succeed
with two-byte payloads; `words` lists the big-endian words of the payloads in order and `s'` is
the transport state after the last read. -/
def ReadsOk {σ : Type} (t : Transport σ) (bank : Bank) :
    σ → List Register → List Nat → σ → Prop
  | s, [], [], s' => s' = s
  | s, register :: rest, word :: words, s' =>
    ∃ hi lo : Byte, (t.readRegisters bank s register 1).2 = Reply.ok [hi, lo] ∧
      word = hi.val * 256 + lo.val ∧
      ReadsOk t bank (t.readRegisters bank s register 1).1 rest words s'
  | _, _, _, _ => False

/-- A batch read that receives `reply` fails with error `e`: the transport reported `e`, or the
payload does not have two bytes and `e` is the "no result bytes" error. -/
def ReadFails (reply : Reply) (e : Error) : Prop :=
  reply = Reply.err e ∨
    ∃ bytes, reply = Reply.ok bytes ∧ bytes.length ≠ 2 ∧ e = Error.noResultBytes

/-- The writes of `entries`, issued one after the other from state `s`, all succeed and leave
the transport in state `s'`. -/
def WritesOk {σ : Type} (t : Transport σ) : σ → List (Register × Nat) → σ → Prop
  | s, [], s' => s' = s
  | s, entry :: rest, s' =>
    (∃ bytes, (t.writeSingleRegister s entry.1 entry.2).2 = Reply.ok bytes) ∧
      WritesOk t (t.writeSingleRegister s entry.1 entry.2).1 rest s'

/-- The map obtained from `m` by storing the entries of `l` in order. -/
def RegMap.setAll (m : RegMap) (l : List (Register × Nat)) : RegMap :=
  l.foldl (fun acc p => acc.set p.1 p.2) m

/-! ## Example transports -/

/-- A link that connects and then answers the successive reads and writes with the given
replies, whatever the address; once the replies are used up it reports a transport error.
The state counts the calls answered. -/
def scripted (replies : List Reply) : Transport Nat where
  connect := fun n => (n, none)
  readInputRegisters := fun n _ _ => (n + 1, (replies.get? n).getD (Reply.err (Error.transport 0)))
  readHoldingRegisters := fun n _ _ => (n + 1, (replies.get? n).getD (Reply.err (Error.transport 0)))
  writeSingleRegister := fun n _ _ => (n + 1, (replies.get? n).getD (Reply.err (Error.transport 0)))
  close := fun n => n

/-- A link that cannot be established: `Connect` fails with the given error. -/
def offline (e : Error) : Transport Unit where
  connect := fun _ => ((), some e)
  readInputRegisters := fun _ _ _ => ((), Reply.err e)
  readHoldingRegisters := fun _ _ _ => ((), Reply.err e)
  writeSingleRegister := fun _ _ _ => ((), Reply.err e)
  close := fun _ => ()

/-- The two banks of a device: the words stored at the addresses of each bank. -/
structure Banks where
  input : RegMap
  holding : RegMap
  deriving DecidableEq, Repr

/-- The two-byte big-endian payload of a word. -/
def payload (word : Nat) : List Byte :=
  [Fin.ofNat (word / 256), Fin.ofNat word]

/-- A device that always connects, answers a read with the word stored in the addressed bank,
and stores written words in the holding bank, echoing them. -/
def device : Transport Banks where
  connect := fun d => (d, none)
  readInputRegisters := fun d address _ => (d, Reply.ok (payload (d.input.get address)))
  readHoldingRegisters := fun d address _ => (d, Reply.ok (payload (d.holding.get address)))
  writeSingleRegister := fun d address value =>
    ({ d with holding := d.holding.set address value }, Reply.ok (payload value))
  close := fun d => d

/-! ## The contract in the words of the specification -/

/-- The signed-scaled decode rule as the specification words it: a raw word below 32768 stands
for itself, any other word `w` stands for `w - 65536`. -/
def signedScaled (w : Nat) : Int :=
  if w < 32768 then (w : Int) else (w : Int) - 65536

/-- The result a single-register read must give for a transport reply, as the specification
words it: the transport's error unchanged; the big-endian word and no error for a payload of
two bytes; value 0 and the decode error for a payload of any other length. -/
def SingleReadResult (reply : Reply) (result : Nat × Option Error) : Prop :=
  (∀ e, reply = Reply.err e → result = (0, some e)) ∧
  (∀ hi lo : Byte, reply = Reply.ok [hi, lo] → result = (hi.val * 256 + lo.val, none)) ∧
  (∀ bytes, reply = Reply.ok bytes → bytes.length ≠ 2 →
    result = (0, some Error.cannotReadRegisterValue))

/-- A trace holds one session that is released: it starts with the open, it holds exactly one
open and exactly one close, and the close is its last event. -/
def ReleasedOnce (trace : List Event) : Prop :=
  trace.head? = some Event.connect ∧ trace.count Event.connect = 1 ∧
    trace.count Event.close = 1 ∧ trace.getLast? = some Event.close

/-! ## Lemmas on the loops -/

theorem fetchValues_connected {σ : Type} (t : Transport σ) (bank : Bank) (s : σ)
    (registers : List Register) (hc : (t.connect s).2 = none) :
    fetchValues t bank s registers =
      { final := t.close (readLoop t bank registers (t.connect s).1 []).1
        trace := Event.connect :: (readLoop t bank registers (t.connect s).1 []).2.1
          ++ [Event.close]
        outcome := Outcome.returned (readLoop t bank registers (t.connect s).1 []).2.2 } := by
  unfold fetchValues
  rcases hcs : t.connect s with ⟨s0, e⟩
  rw [hcs] at hc
  simp only at hc
  subst hc
  rfl

theorem readLoop_ok {σ : Type} (t : Transport σ) (bank : Bank) :
    ∀ (registers : List Register) (s : σ) (m : RegMap) (words : List Nat) (s' : σ),
      ReadsOk t bank s registers words s' →
      readLoop t bank registers s m =
        (s', registers.map (fun r => Event.read bank r 1),
          (m.setAll (registers.zip words), none))
  | [], s, m, [], s', h => by
    simp only [ReadsOk] at h
    subst h
    rfl
  | [], _, _, _ :: _, _, h => by simp [ReadsOk] at h
  | _ :: _, _, _, [], _, h => by simp [ReadsOk] at h
  | register :: rest, s, m, word :: words, s', h => by
    simp only [ReadsOk] at h
    obtain ⟨hi, lo, hreply, hword, hrest⟩ := h
    have ih := readLoop_ok t bank rest _ (m.set register word) words s' hrest
    rcases hr : t.readRegisters bank s register 1 with ⟨s1, reply⟩
    rw [hr] at hreply ih
    simp only at hreply ih
    subst hreply
    simp only [readLoop, hr, List.length_cons, List.length_nil, if_true, bigEndianUint16]
    rw [← hword, ih]
    rfl

theorem readLoop_fails {σ : Type} (t : Transport σ) (bank : Bank) :
    ∀ (before : List Register) (register : Register) (after : List Register) (s : σ)
      (m : RegMap) (words : List Nat) (s' : σ) (e : Error),
      ReadsOk t bank s before words s' →
      ReadFails (t.readRegisters bank s' register 1).2 e →
      readLoop t bank (before ++ register :: after) s m =
        ((t.readRegisters bank s' register 1).1,
          (before ++ [register]).map (fun r => Event.read bank r 1),
          (m.setAll (before.zip words), some e))
  | [], register, after, s, m, [], s', e, h, hf => by
    simp only [ReadsOk] at h
    subst h
    rcases hr : t.readRegisters bank s' register 1 with ⟨s1, reply⟩
    rw [hr] at hf
    rcases hf with hf | ⟨bytes, hb, hlen, he⟩
    · simp only at hf
      subst hf
      simp [readLoop, hr, RegMap.setAll]
    · simp only at hb
      subst hb he
      simp [readLoop, hr, RegMap.setAll, hlen]
  | [], _, _, _, _, _ :: _, _, _, h, _ => by simp [ReadsOk] at h
  | _ :: _, _, _, _, _, [], _, _, h, _ => by simp [ReadsOk] at h
  | first :: before, register, after, s, m, word :: words, s', e, h, hf => by
    simp only [ReadsOk] at h
    obtain ⟨hi, lo, hreply, hword, hrest⟩ := h
    have ih := readLoop_fails t bank before register after _ (m.set first word) words s' e
      hrest hf
    rcases hr : t.readRegisters bank s first 1 with ⟨s1, reply⟩
    rw [hr] at hreply ih
    simp only at hreply ih
    subst hreply
    simp only [List.cons_append, readLoop, hr, List.length_cons, List.length_nil, if_true,
      bigEndianUint16, List.append_eq]
    rw [← hword, ih]
    rfl

theorem ReadsOk_length {σ : Type} (t : Transport σ) (bank : Bank) :
    ∀ (registers : List Register) (s : σ) (words : List Nat) (s' : σ),
      ReadsOk t bank s registers words s' → words.length = registers.length
  | [], _, [], _, _ => rfl
  | [], _, _ :: _, _, h => by simp [ReadsOk] at h
  | _ :: _, _, [], _, h => by simp [ReadsOk] at h
  | register :: rest, s, word :: words, s', h => by
    simp only [ReadsOk] at h
    obtain ⟨_, _, _, _, hrest⟩ := h
    simp [ReadsOk_length t bank rest _ words s' hrest]

theorem ReadsOk_word_lt {σ : Type} (t : Transport σ) (bank : Bank) :
    ∀ (registers : List Register) (s : σ) (words : List Nat) (s' : σ),
      ReadsOk t bank s registers words s' → ∀ w ∈ words, w < 65536
  | [], _, [], _, _ => by simp
  | [], _, _ :: _, _, h => by simp [ReadsOk] at h
  | _ :: _, _, [], _, h => by simp [ReadsOk] at h
  | register :: rest, s, word :: words, s', h => by
    simp only [ReadsOk] at h
    obtain ⟨hi, lo, _, hword, hrest⟩ := h
    intro w hw
    rcases List.mem_cons.mp hw with hw | hw
    · have h1 := hi.isLt
      have h2 := lo.isLt
      omega
    · exact ReadsOk_word_lt t bank rest _ words s' hrest w hw

/-! ## Lemmas on the map -/

theorem RegMap.lookup_filter_ne (m : RegMap) (r r' : Register) (h : r' ≠ r) :
    (m.filter (fun p => p.1 != r)).lookup r' = m.lookup r' := by
  induction m with
  | nil => rfl
  | cons p m ih =>
    obtain ⟨k, v⟩ := p
    by_cases hk : k = r
    · subst hk
      have hne : (r' == k) = false := by simpa using h
      simp [List.filter_cons, List.lookup_cons, hne, ih]
    · have hk' : (k != r) = true := by simpa using hk
      simp only [List.filter_cons, hk', if_true, List.lookup_cons, ih]

theorem RegMap.lookup_set (m : RegMap) (r : Register) (w : Nat) (r' : Register) :
    (m.set r w).lookup r' = if r' = r then some w else m.lookup r' := by
  unfold RegMap.set
  by_cases h : r' = r
  · subst h
    simp [List.lookup_cons]
  · have hne : (r' == r) = false := by simpa using h
    simp only [List.lookup_cons, hne, if_neg h]
    exact RegMap.lookup_filter_ne m r r' h

theorem RegMap.setAll_cons (m : RegMap) (p : Register × Nat) (l : List (Register × Nat)) :
    m.setAll (p :: l) = (m.set p.1 p.2).setAll l := rfl

theorem RegMap.lookup_setAll_of_not_mem (r : Register) :
    ∀ (l : List (Register × Nat)) (m : RegMap), r ∉ l.map Prod.fst →
      (m.setAll l).lookup r = m.lookup r
  | [], _, _ => rfl
  | p :: l, m, h => by
    simp only [List.map_cons, List.mem_cons, not_or] at h
    rw [RegMap.setAll_cons, RegMap.lookup_setAll_of_not_mem r l _ h.2, RegMap.lookup_set,
      if_neg h.1]

theorem RegMap.lookup_setAll_zip_of_not_mem (r : Register) (registers : List Register)
    (words : List Nat) (m : RegMap) (h : r ∉ registers) :
    (m.setAll (registers.zip words)).lookup r = m.lookup r := by
  apply RegMap.lookup_setAll_of_not_mem
  intro hmem
  obtain ⟨p, hp, hpr⟩ := List.mem_map.mp hmem
  obtain ⟨k, v⟩ := p
  simp only at hpr
  subst hpr
  exact h (List.of_mem_zip hp).1

theorem RegMap.lookup_setAll_zip_last (r : Register) (after : List Register)
    (hnot : r ∉ after) :
    ∀ (before : List Register) (words : List Nat) (m : RegMap),
      words.length = (before ++ r :: after).length →
      (m.setAll ((before ++ r :: after).zip words)).lookup r = words.get? before.length
  | [], [], _, h => by simp at h
  | [], w :: ws, m, _ => by
    simp only [List.nil_append, List.zip_cons_cons, RegMap.setAll_cons, List.length_nil,
      List.get?_cons_zero]
    rw [RegMap.lookup_setAll_zip_of_not_mem r after ws _ hnot, RegMap.lookup_set, if_pos rfl]
  | _ :: _, [], _, h => by simp at h
  | b :: before, w :: ws, m, h => by
    simp only [List.cons_append, List.zip_cons_cons, RegMap.setAll_cons, List.length_cons,
      List.get?_cons_succ]
    apply RegMap.lookup_setAll_zip_last r after hnot before ws
    simpa using h

/-! ## C1: a failed read in a batch -/

/-- C1 (counterexample): with three registers whose second read fails with a transport error,
`FetchInputRegisterValues` returns the error together with a map that still holds the word of
the first register, not a map with zero entries. -/
theorem FetchInputRegisterValues_second_read_fails_keeps_first_word :
    ((scripted [Reply.ok [0, 7], Reply.err (Error.transport 9), Reply.ok [0, 1]]).readInputRegisters
        1 T1InTakeTemp 1).2 = Reply.err (Error.transport 9) ∧
    (FetchInputRegisterValues
        (scripted [Reply.ok [0, 7], Reply.err (Error.transport 9), Reply.ok [0, 1]]) 0
        [T0Controller, T1InTakeTemp, T2InletTemp]).outcome
      = Outcome.returned ([(T0Controller, 7)], some (Error.transport 9)) ∧
    (FetchInputRegisterValues
        (scripted [Reply.ok [0, 7], Reply.err (Error.transport 9), Reply.ok [0, 1]]) 0
        [T0Controller, T1InTakeTemp, T2InletTemp]).outcome
      ≠ Outcome.returned ([], some (Error.transport 9)) := by
  decide

/-- C1 (amended): when the reads of the registers `before` succeed with the words `words` and
the next read fails with `e` (a transport error, or a payload that is not two bytes long),
`FetchInputRegisterValues` (`fetchValues` on `Bank.input`) and `FetchHoldingValues`
(`fetchValues` on `Bank.holding`) return the error `e`, issue no read after the failed one,
and return the map that holds exactly the words read before the failure: no entry for a
register outside `before`, and for a register of `before` the word of its last read. -/
theorem fetchValues_failed_read_returns_words_before {σ : Type} (t : Transport σ) (bank : Bank)
    (s : σ) (before : List Register) (register : Register) (after : List Register)
    (words : List Nat) (s' : σ) (e : Error)
    (hc : (t.connect s).2 = none)
    (hok : ReadsOk t bank (t.connect s).1 before words s')
    (hf : ReadFails (t.readRegisters bank s' register 1).2 e) :
    (fetchValues t bank s (before ++ register :: after)).trace
      = Event.connect :: (before ++ [register]).map (fun r => Event.read bank r 1)
          ++ [Event.close] ∧
    ∃ m : RegMap,
      (fetchValues t bank s (before ++ register :: after)).outcome
        = Outcome.returned (m, some e) ∧
      (∀ r, r ∉ before → m.lookup r = none) ∧
      (∀ first r rest, before = first ++ r :: rest → r ∉ rest →
        m.lookup r = words.get? first.length) := by
  rw [fetchValues_connected t bank s _ hc,
    readLoop_fails t bank before register after _ [] words s' e hok hf]
  refine ⟨rfl, _, rfl, ?_, ?_⟩
  · intro r hr
    rw [RegMap.lookup_setAll_zip_of_not_mem r before words [] hr]
    rfl
  · intro first r rest hbefore hr
    subst hbefore
    exact RegMap.lookup_setAll_zip_last r rest hr first words []
      (ReadsOk_length t bank _ _ words s' hok)

/-- C1 (witness): the amended statement at the three-register run whose second read fails. -/
theorem fetchValues_failed_read_returns_words_before_witness :
    ((scripted [Reply.ok [0, 7], Reply.err (Error.transport 9), Reply.ok [0, 1]]).connect 0).2
      = none ∧
    ReadsOk (scripted [Reply.ok [0, 7], Reply.err (Error.transport 9), Reply.ok [0, 1]])
      Bank.input 0 [T0Controller] [7] 1 ∧
    ReadFails ((scripted [Reply.ok [0, 7], Reply.err (Error.transport 9),
      Reply.ok [0, 1]]).readRegisters Bank.input 1 T1InTakeTemp 1).2 (Error.transport 9) ∧
    ((FetchInputRegisterValues
        (scripted [Reply.ok [0, 7], Reply.err (Error.transport 9), Reply.ok [0, 1]]) 0
        [T0Controller, T1InTakeTemp, T2InletTemp]).trace
      = [Event.connect, Event.read Bank.input 200 1, Event.read Bank.input 201 1, Event.close] ∧
    ∃ m : RegMap,
      (FetchInputRegisterValues
        (scripted [Reply.ok [0, 7], Reply.err (Error.transport 9), Reply.ok [0, 1]]) 0
        [T0Controller, T1InTakeTemp, T2InletTemp]).outcome
        = Outcome.returned (m, some (Error.transport 9)) ∧
      (∀ r, r ∉ [T0Controller] → m.lookup r = none) ∧
      (∀ first r rest, [T0Controller] = first ++ r :: rest → r ∉ rest →
        m.lookup r = [7].get? first.length)) :=
  ⟨rfl, ⟨0, 7, rfl, rfl, rfl⟩, Or.inl rfl,
    fetchValues_failed_read_returns_words_before
      (scripted [Reply.ok [0, 7], Reply.err (Error.transport 9), Reply.ok [0, 1]]) Bank.input 0
      [T0Controller] T1InTakeTemp [T2InletTemp] [7] 1 (Error.transport 9) rfl
      ⟨0, 7, rfl, rfl, rfl⟩ (Or.inl rfl)⟩

/-! ## Lemmas on the write loop -/

theorem SetRegisterValues_connected {σ : Type} (t : Transport σ) (s : σ)
    (visited : List (Register × Nat)) (hc : (t.connect s).2 = none) :
    SetRegisterValues t s visited =
      { final := t.close (writeLoop t visited (t.connect s).1).1
        trace := Event.connect :: (writeLoop t visited (t.connect s).1).2.1 ++ [Event.close]
        outcome := Outcome.returned (writeLoop t visited (t.connect s).1).2.2 } := by
  unfold SetRegisterValues
  rcases hcs : t.connect s with ⟨s0, e⟩
  rw [hcs] at hc
  simp only at hc
  subst hc
  rfl

theorem writeLoop_ok {σ : Type} (t : Transport σ) :
    ∀ (entries : List (Register × Nat)) (s s' : σ), WritesOk t s entries s' →
      writeLoop t entries s = (s', entries.map (fun p => Event.write p.1 p.2), none)
  | [], s, s', h => by
    simp only [WritesOk] at h
    subst h
    rfl
  | (register, value) :: rest, s, s', h => by
    simp only [WritesOk] at h
    obtain ⟨⟨bytes, hreply⟩, hrest⟩ := h
    have ih := writeLoop_ok t rest _ s' hrest
    rcases hw : t.writeSingleRegister s register value with ⟨s1, reply⟩
    rw [hw] at hreply ih
    simp only at hreply ih
    subst hreply
    simp only [writeLoop, hw, ih, List.map_cons]

theorem writeLoop_fails {σ : Type} (t : Transport σ) :
    ∀ (before : List (Register × Nat)) (entry : Register × Nat)
      (after : List (Register × Nat)) (s s' : σ) (e : Error),
      WritesOk t s before s' →
      (t.writeSingleRegister s' entry.1 entry.2).2 = Reply.err e →
      writeLoop t (before ++ entry :: after) s =
        ((t.writeSingleRegister s' entry.1 entry.2).1,
          (before ++ [entry]).map (fun p => Event.write p.1 p.2), some e)
  | [], (register, value), after, s, s', e, h, hf => by
    simp only [WritesOk] at h
    subst h
    rcases hw : t.writeSingleRegister s' register value with ⟨s1, reply⟩
    rw [hw] at hf
    simp only at hf
    subst hf
    simp [writeLoop, hw]
  | (register, value) :: before, entry, after, s, s', e, h, hf => by
    simp only [WritesOk] at h
    obtain ⟨⟨bytes, hreply⟩, hrest⟩ := h
    have ih := writeLoop_fails t before entry after _ s' e hrest hf
    rcases hw : t.writeSingleRegister s register value with ⟨s1, reply⟩
    rw [hw] at hreply ih
    simp only at hreply ih
    subst hreply
    simp only [List.cons_append, writeLoop, hw, ih, List.map_cons, List.append_eq]

/-- Every run of the write loop either succeeds on all entries or stops at a first failing
entry. -/
theorem writes_ok_or_first_failure {σ : Type} (t : Transport σ) :
    ∀ (entries : List (Register × Nat)) (s : σ),
      (∃ s', WritesOk t s entries s') ∨
      ∃ before entry after s' e, entries = before ++ entry :: after ∧
        WritesOk t s before s' ∧
        (t.writeSingleRegister s' entry.1 entry.2).2 = Reply.err e
  | [], s => Or.inl ⟨s, by simp [WritesOk]⟩
  | (register, value) :: rest, s => by
    rcases hw : t.writeSingleRegister s register value with ⟨s1, reply⟩
    cases reply with
    | err e =>
      exact Or.inr ⟨[], (register, value), rest, s, e, rfl, by simp [WritesOk], by simp [hw]⟩
    | ok bytes =>
      rcases writes_ok_or_first_failure t rest s1 with ⟨s', h⟩ | ⟨before, entry, after, s', e, h1, h2, h3⟩
      · exact Or.inl ⟨s', by simp only [WritesOk, hw]; exact ⟨⟨bytes, rfl⟩, h⟩⟩
      · refine Or.inr ⟨(register, value) :: before, entry, after, s', e, ?_, ?_, h3⟩
        · simp [h1]
        · simp only [WritesOk, hw]
          exact ⟨⟨bytes, rfl⟩, h2⟩

/-! ## C2: writes to read-only registers -/

/-- C2 (counterexample): `HeatExtSet` (2100) exists only in the input bank of the catalog, yet
`SetRegisterValues` on a map holding it issues the `WriteSingleRegister` call and returns no
error. -/
theorem SetRegisterValues_writes_HeatExtSet :
    HeatExtSet ∈ inputBank ∧ HeatExtSet ∉ holdingBank ∧
    (SetRegisterValues device { input := [], holding := [] } [(HeatExtSet, 5)]).trace
      = [Event.connect, Event.write 2100 5, Event.close] ∧
    (SetRegisterValues device { input := [], holding := [] } [(HeatExtSet, 5)]).outcome
      = Outcome.returned none := by
  decide

/-- C2 (amended): `SetRegisterValues` makes no writability check.  For every value map that
holds a register `r` found only in the input bank of the catalog, when `Connect` succeeds the
call returns; when the transport accepts the writes it issues a `WriteSingleRegister` for
every entry visited, the one of `r` included, and returns no error; and every error it
returns is the error the transport gave to a `WriteSingleRegister` call that was issued, the
last call before the close. -/
theorem SetRegisterValues_writes_input_only_register {σ : Type} (t : Transport σ) (s : σ)
    (visited : List (Register × Nat)) (r : Register) (v : Nat)
    (hc : (t.connect s).2 = none)
    (_hin : r ∈ inputBank) (_hnot : r ∉ holdingBank) (hmem : (r, v) ∈ visited) :
    (∀ s', WritesOk t (t.connect s).1 visited s' →
      (SetRegisterValues t s visited).outcome = Outcome.returned none ∧
      Event.write r v ∈ (SetRegisterValues t s visited).trace ∧
      (SetRegisterValues t s visited).trace
        = Event.connect :: visited.map (fun p => Event.write p.1 p.2) ++ [Event.close]) ∧
    (∀ e, (SetRegisterValues t s visited).outcome = Outcome.returned (some e) →
      ∃ before entry after s',
        visited = before ++ entry :: after ∧
        WritesOk t (t.connect s).1 before s' ∧
        (t.writeSingleRegister s' entry.1 entry.2).2 = Reply.err e ∧
        (SetRegisterValues t s visited).trace
          = Event.connect :: (before ++ [entry]).map (fun p => Event.write p.1 p.2)
              ++ [Event.close]) ∧
    (∃ result, (SetRegisterValues t s visited).outcome = Outcome.returned result) := by
  refine ⟨?_, ?_, ?_⟩
  · intro s' hok
    rw [SetRegisterValues_connected t s visited hc, writeLoop_ok t visited _ s' hok]
    refine ⟨rfl, ?_, rfl⟩
    simp only [List.cons_append, List.mem_cons, List.mem_append, List.mem_map]
    exact Or.inr (Or.inl ⟨(r, v), hmem, rfl⟩)
  · intro e h
    rw [SetRegisterValues_connected t s visited hc] at h ⊢
    rcases writes_ok_or_first_failure t visited (t.connect s).1 with
      ⟨s', hok⟩ | ⟨before, entry, after, s', e0, hsplit, hok, hfail⟩
    · rw [writeLoop_ok t visited _ s' hok] at h
      cases h
    · subst hsplit
      rw [writeLoop_fails t before entry after _ s' e0 hok hfail] at h ⊢
      simp only [Outcome.returned.injEq, Option.some.injEq] at h
      subst h
      exact ⟨before, entry, after, s', rfl, hok, hfail, rfl⟩
  · rw [SetRegisterValues_connected t s visited hc]
    exact ⟨_, rfl⟩

/-- C2 (witness): the amended statement for a map holding `ControlRunSet` and the input-only
`AirFilter` (101), on a device that accepts both writes and on a link that answers the write
of `AirFilter` with a transport error. -/
theorem SetRegisterValues_writes_input_only_register_witness :
    AirFilter ∈ inputBank ∧ AirFilter ∉ holdingBank ∧
    (AirFilter, 1) ∈ [(ControlRunSet, 1), (AirFilter, 1)] ∧
    (device.connect { input := [], holding := [] }).2 = none ∧
    WritesOk device (device.connect { input := [], holding := [] }).1
      [(ControlRunSet, 1), (AirFilter, 1)] { input := [], holding := [(101, 1), (1001, 1)] } ∧
    (SetRegisterValues device { input := [], holding := [] }
        [(ControlRunSet, 1), (AirFilter, 1)]).outcome = Outcome.returned none ∧
    ((∀ s', WritesOk device (device.connect { input := [], holding := [] }).1
          [(ControlRunSet, 1), (AirFilter, 1)] s' →
        (SetRegisterValues device { input := [], holding := [] }
          [(ControlRunSet, 1), (AirFilter, 1)]).outcome = Outcome.returned none ∧
        Event.write AirFilter 1 ∈ (SetRegisterValues device { input := [], holding := [] }
          [(ControlRunSet, 1), (AirFilter, 1)]).trace ∧
        (SetRegisterValues device { input := [], holding := [] }
          [(ControlRunSet, 1), (AirFilter, 1)]).trace
          = Event.connect :: ([(ControlRunSet, 1), (AirFilter, 1)]).map (fun p => Event.write p.1 p.2)
              ++ [Event.close]) ∧
      (∀ e, (SetRegisterValues device { input := [], holding := [] }
          [(ControlRunSet, 1), (AirFilter, 1)]).outcome = Outcome.returned (some e) →
        ∃ before entry after s',
          [(ControlRunSet, 1), (AirFilter, 1)] = before ++ entry :: after ∧
          WritesOk device (device.connect { input := [], holding := [] }).1 before s' ∧
          (device.writeSingleRegister s' entry.1 entry.2).2 = Reply.err e ∧
          (SetRegisterValues device { input := [], holding := [] }
          [(ControlRunSet, 1), (AirFilter, 1)]).trace
            = Event.connect :: (before ++ [entry]).map (fun p => Event.write p.1 p.2)
                ++ [Event.close]) ∧
      (∃ result, (SetRegisterValues device { input := [], holding := [] }
          [(ControlRunSet, 1), (AirFilter, 1)]).outcome = Outcome.returned result)) ∧
    ((scripted [Reply.ok [0, 1], Reply.err (Error.transport 4)]).connect 0).2 = none ∧
    ((scripted [Reply.ok [0, 1], Reply.err (Error.transport 4)]).writeSingleRegister 1 AirFilter 1).2 = Reply.err (Error.transport 4) ∧
    (SetRegisterValues (scripted [Reply.ok [0, 1], Reply.err (Error.transport 4)]) 0
        [(ControlRunSet, 1), (AirFilter, 1)]).outcome
      = Outcome.returned (some (Error.transport 4)) ∧
    (SetRegisterValues (scripted [Reply.ok [0, 1], Reply.err (Error.transport 4)]) 0
        [(ControlRunSet, 1), (AirFilter, 1)]).trace
      = [Event.connect, Event.write 1001 1, Event.write 101 1, Event.close] ∧
    ((∀ s', WritesOk (scripted [Reply.ok [0, 1], Reply.err (Error.transport 4)]) ((scripted [Reply.ok [0, 1], Reply.err (Error.transport 4)]).connect 0).1
          [(ControlRunSet, 1), (AirFilter, 1)] s' →
        (SetRegisterValues (scripted [Reply.ok [0, 1], Reply.err (Error.transport 4)]) 0
          [(ControlRunSet, 1), (AirFilter, 1)]).outcome = Outcome.returned none ∧
        Event.write AirFilter 1 ∈ (SetRegisterValues (scripted [Reply.ok [0, 1], Reply.err (Error.transport 4)]) 0
          [(ControlRunSet, 1), (AirFilter, 1)]).trace ∧
        (SetRegisterValues (scripted [Reply.ok [0, 1], Reply.err (Error.transport 4)]) 0
          [(ControlRunSet, 1), (AirFilter, 1)]).trace
          = Event.connect :: ([(ControlRunSet, 1), (AirFilter, 1)]).map (fun p => Event.write p.1 p.2)
              ++ [Event.close]) ∧
      (∀ e, (SetRegisterValues (scripted [Reply.ok [0, 1], Reply.err (Error.transport 4)]) 0
          [(ControlRunSet, 1), (AirFilter, 1)]).outcome = Outcome.returned (some e) →
        ∃ before entry after s',
          [(ControlRunSet, 1), (AirFilter, 1)] = before ++ entry :: after ∧
          WritesOk (scripted [Reply.ok [0, 1], Reply.err (Error.transport 4)]) ((scripted [Reply.ok [0, 1], Reply.err (Error.transport 4)]).connect 0).1 before s' ∧
          ((scripted [Reply.ok [0, 1], Reply.err (Error.transport 4)]).writeSingleRegister s' entry.1 entry.2).2 = Reply.err e ∧
          (SetRegisterValues (scripted [Reply.ok [0, 1], Reply.err (Error.transport 4)]) 0
          [(ControlRunSet, 1), (AirFilter, 1)]).trace
            = Event.connect :: (before ++ [entry]).map (fun p => Event.write p.1 p.2)
                ++ [Event.close]) ∧
      (∃ result, (SetRegisterValues (scripted [Reply.ok [0, 1], Reply.err (Error.transport 4)]) 0
          [(ControlRunSet, 1), (AirFilter, 1)]).outcome = Outcome.returned result)) :=
  ⟨by decide, by decide, by decide, rfl, ⟨⟨_, rfl⟩, ⟨_, rfl⟩, rfl⟩, by decide,
    SetRegisterValues_writes_input_only_register device { input := [], holding := [] }
      [(ControlRunSet, 1), (AirFilter, 1)] AirFilter 1 rfl (by decide) (by decide) (by decide),
    rfl, by decide, by decide, by decide,
    SetRegisterValues_writes_input_only_register
      (scripted [Reply.ok [0, 1], Reply.err (Error.transport 4)]) 0
      [(ControlRunSet, 1), (AirFilter, 1)] AirFilter 1 rfl (by decide) (by decide) (by decide)⟩

/-! ## C3: the error flags -/

theorem snapshotOf_returned {σ α : Type} (build : RegMap → α)
    (run : Run σ (RegMap × Option Error)) (raw : RegMap)
    (h : run.outcome = Outcome.returned (raw, none)) :
    (snapshotOf build run).outcome = Outcome.returned (some (build raw), none) := by
  unfold snapshotOf
  rw [h]

/-- C3: when the batch read of `FetchErrors` succeeds with the raw words `readings`,
`FetchErrors` returns the flags where `OldFilterWarning` holds exactly when the `AirFilter` word
is 1 and `OtherErrors` holds exactly when one of the `FireSmoke`, `FrostOverHeat`,
`HighPressure`, `BoilWater`, `Defrost` words is 1; any raw words that agree with `readings`
away from `DoorOpen` give the same flags. -/
theorem FetchErrors_flags {σ : Type} (t : Transport σ) (s : σ) (readings : RegMap)
    (h : (FetchInputRegisterValues t s FetchErrors.registers).outcome
      = Outcome.returned (readings, none)) :
    ∃ errors : Errors,
      (FetchErrors t s).outcome = Outcome.returned (some errors, none) ∧
      (errors.OldFilterWarning = true ↔ readings.get AirFilter = 1) ∧
      (errors.OtherErrors = true ↔
        (readings.get FireSmoke = 1 ∨ readings.get FrostOverHeat = 1 ∨
          readings.get HighPressure = 1 ∨ readings.get BoilWater = 1 ∨
          readings.get Defrost = 1)) ∧
      (∀ other : RegMap, (∀ r, r ≠ DoorOpen → other.get r = readings.get r) →
        FetchErrors.errors other = errors) := by
  refine ⟨FetchErrors.errors readings, snapshotOf_returned _ _ _ h, ?_, ?_, ?_⟩
  · simp only [FetchErrors.errors, decide_eq_true_eq, Int.ofNat_eq_coe]
    omega
  · simp only [FetchErrors.errors, Bool.or_eq_true, decide_eq_true_eq, Int.ofNat_eq_coe]
    omega
  · intro other hother
    have h1 := hother AirFilter (by decide)
    have h2 := hother FireSmoke (by decide)
    have h3 := hother FrostOverHeat (by decide)
    have h4 := hother HighPressure (by decide)
    have h5 := hother BoilWater (by decide)
    have h6 := hother Defrost (by decide)
    simp only [FetchErrors.errors, h1, h2, h3, h4, h5, h6]

/-- C3 (witness): the `AirFilter` word is 1 and the six other words are 0. -/
theorem FetchErrors_flags_witness :
    (FetchInputRegisterValues
        (scripted [Reply.ok [0, 1], Reply.ok [0, 0], Reply.ok [0, 0], Reply.ok [0, 0],
          Reply.ok [0, 0], Reply.ok [0, 0], Reply.ok [0, 0]]) 0 FetchErrors.registers).outcome
      = Outcome.returned
          ([(112, 0), (107, 0), (106, 0), (105, 0), (103, 0), (102, 0), (101, 1)], none) ∧
    (FetchErrors
        (scripted [Reply.ok [0, 1], Reply.ok [0, 0], Reply.ok [0, 0], Reply.ok [0, 0],
          Reply.ok [0, 0], Reply.ok [0, 0], Reply.ok [0, 0]]) 0).outcome
      = Outcome.returned (some { OldFilterWarning := true, OtherErrors := false }, none) ∧
    ∃ errors : Errors,
      (FetchErrors
        (scripted [Reply.ok [0, 1], Reply.ok [0, 0], Reply.ok [0, 0], Reply.ok [0, 0],
          Reply.ok [0, 0], Reply.ok [0, 0], Reply.ok [0, 0]]) 0).outcome
        = Outcome.returned (some errors, none) ∧
      (errors.OldFilterWarning = true ↔
        RegMap.get [(112, 0), (107, 0), (106, 0), (105, 0), (103, 0), (102, 0), (101, 1)]
          AirFilter = 1) ∧
      (errors.OtherErrors = true ↔
        (RegMap.get [(112, 0), (107, 0), (106, 0), (105, 0), (103, 0), (102, 0), (101, 1)]
            FireSmoke = 1 ∨
          RegMap.get [(112, 0), (107, 0), (106, 0), (105, 0), (103, 0), (102, 0), (101, 1)]
            FrostOverHeat = 1 ∨
          RegMap.get [(112, 0), (107, 0), (106, 0), (105, 0), (103, 0), (102, 0), (101, 1)]
            HighPressure = 1 ∨
          RegMap.get [(112, 0), (107, 0), (106, 0), (105, 0), (103, 0), (102, 0), (101, 1)]
            BoilWater = 1 ∨
          RegMap.get [(112, 0), (107, 0), (106, 0), (105, 0), (103, 0), (102, 0), (101, 1)]
            Defrost = 1)) ∧
      (∀ other : RegMap,
        (∀ r, r ≠ DoorOpen → other.get r =
          RegMap.get [(112, 0), (107, 0), (106, 0), (105, 0), (103, 0), (102, 0), (101, 1)] r) →
        FetchErrors.errors other = errors) :=
  ⟨by decide, by decide,
    FetchErrors_flags
      (scripted [Reply.ok [0, 1], Reply.ok [0, 0], Reply.ok [0, 0], Reply.ok [0, 0],
        Reply.ok [0, 0], Reply.ok [0, 0], Reply.ok [0, 0]]) 0
      [(112, 0), (107, 0), (106, 0), (105, 0), (103, 0), (102, 0), (101, 1)] (by decide)⟩

/-! ## C4: signed-scaled decoding -/

theorem int16_eq_signedScaled (w : Nat) (hw : w < 65536) : int16 w = signedScaled w := by
  unfold int16 signedScaled
  simp only [Int.ofNat_eq_coe]
  split <;> omega

theorem signedScaled_range (w : Nat) (hw : w < 65536) :
    -32768 ≤ signedScaled w ∧ signedScaled w ≤ 32767 := by
  unfold signedScaled
  split <;> omega

/-- C4 (amended): for raw words in 0..65535, each of the following signed-scaled fields is the
16-bit two's complement reading of the raw word of its register (the word itself below 32768,
the word minus 65536 otherwise), and such a value always lies in -32768..32767: in `Readings`
the temperatures `T0Controller` to `T15RoomTemp`, `RelativeHumidity`, `CO2`, `TemperatureSet`,
`TempControl`, `TempRoom`, `Efficiency`, `RequestedCapacity`, `ActualCapacity` and
`HeatExtSet`; in `ReadingHoldings` the fields `ControlTempSet`, `SummerTempMin`,
`WinterTempMin`, `SummerTempMax`, `WinterTempMax`, `SummerTempLimit`,
`HotWaterTempElectricT11` and `HotWaterTempCompressorT12`; in `Settings` the fields
`RequestedTemperature` and `CoolTemperature`.  The field `CoolSet` of `ReadingHoldings` is not
covered by this statement. -/
theorem signed_fields_are_twos_complement (m : RegMap) (hm : ∀ r, m.get r < 65536) :
    (FetchReadings.readings m).T0Controller = signedScaled (m.get T0Controller) ∧
    (FetchReadings.readings m).T1InTakeTemp = signedScaled (m.get T1InTakeTemp) ∧
    (FetchReadings.readings m).T2InletTemp = signedScaled (m.get T2InletTemp) ∧
    (FetchReadings.readings m).T3ExhaustTemp = signedScaled (m.get T3ExhaustTemp) ∧
    (FetchReadings.readings m).T4OutletTemp = signedScaled (m.get T4OutletTemp) ∧
    (FetchReadings.readings m).T5CondTemp = signedScaled (m.get T5CondTemp) ∧
    (FetchReadings.readings m).T6EvapTemp = signedScaled (m.get T6EvapTemp) ∧
    (FetchReadings.readings m).T7InletTemp = signedScaled (m.get T7InletTemp) ∧
    (FetchReadings.readings m).T8OutdoorTemp = signedScaled (m.get T8OutdoorTemp) ∧
    (FetchReadings.readings m).T9HeaterTemp = signedScaled (m.get T9HeaterTemp) ∧
    (FetchReadings.readings m).T10ExtTemp = signedScaled (m.get T10ExtTemp) ∧
    (FetchReadings.readings m).T11HotWaterTopTemp = signedScaled (m.get T11HotWaterTopTemp) ∧
    (FetchReadings.readings m).T12HotWaterBottomTemp = signedScaled (m.get T12HotWaterBottomTemp) ∧
    (FetchReadings.readings m).T13ReturnTemp = signedScaled (m.get T13ReturnTemp) ∧
    (FetchReadings.readings m).T14SupplyTemp = signedScaled (m.get T14SupplyTemp) ∧
    (FetchReadings.readings m).T15RoomTemp = signedScaled (m.get T15RoomTemp) ∧
    (FetchReadings.readings m).RelativeHumidity = signedScaled (m.get RelativeHumidity) ∧
    (FetchReadings.readings m).CO2 = signedScaled (m.get CO2) ∧
    (FetchReadings.readings m).TemperatureSet = signedScaled (m.get TemperatureSet) ∧
    (FetchReadings.readings m).TempControl = signedScaled (m.get TempControl) ∧
    (FetchReadings.readings m).TempRoom = signedScaled (m.get TempRoom) ∧
    (FetchReadings.readings m).Efficiency = signedScaled (m.get Efficiency) ∧
    (FetchReadings.readings m).RequestedCapacity = signedScaled (m.get RequestedCapacity) ∧
    (FetchReadings.readings m).ActualCapacity = signedScaled (m.get ActualCapacity) ∧
    (FetchReadings.readings m).HeatExtSet = signedScaled (m.get HeatExtSet) ∧
    (FetchHoldingRegisters.readings m).ControlTempSet = signedScaled (m.get ControlTempSet) ∧
    (FetchHoldingRegisters.readings m).SummerTempMin = signedScaled (m.get SummerTempMin) ∧
    (FetchHoldingRegisters.readings m).WinterTempMin = signedScaled (m.get WinterTempMin) ∧
    (FetchHoldingRegisters.readings m).SummerTempMax = signedScaled (m.get SummerTempMax) ∧
    (FetchHoldingRegisters.readings m).WinterTempMax = signedScaled (m.get WinterTempMax) ∧
    (FetchHoldingRegisters.readings m).SummerTempLimit = signedScaled (m.get SummerTempLimit) ∧
    (FetchHoldingRegisters.readings m).HotWaterTempElectricT11 = signedScaled (m.get HotWaterTempElectricT11) ∧
    (FetchHoldingRegisters.readings m).HotWaterTempCompressorT12 = signedScaled (m.get HotWaterTempCompressorT12) ∧
    (FetchSettings.settings m).RequestedTemperature = signedScaled (m.get ControlTempSet) ∧
    (FetchSettings.settings m).CoolTemperature = signedScaled (m.get CoolSet) ∧
    (∀ w, w < 65536 → int16 w = signedScaled w ∧ -32768 ≤ int16 w ∧ int16 w ≤ 32767) := by
  refine ⟨?_, ?_, ?_, ?_, ?_, ?_, ?_, ?_, ?_, ?_, ?_, ?_, ?_, ?_, ?_, ?_, ?_, ?_, ?_, ?_, ?_, ?_, ?_, ?_, ?_, ?_, ?_, ?_, ?_, ?_, ?_, ?_, ?_, ?_, ?_, ?_⟩
  all_goals first
    | exact int16_eq_signedScaled _ (hm _)
    | (intro w hw
       rw [int16_eq_signedScaled w hw]
       exact ⟨rfl, signedScaled_range w hw⟩)

/-- C4 (counterexample): the raw word `0xF838` read for the signed-scaled field `T0Controller`
decodes to -1992, not to -200; and the raw word `0xFF38` read for the cooling set point
`CoolSet`, which `FetchSettings` decodes to -200, is decoded by `FetchHoldingRegisters` to
65336, outside -32768..32767. -/
theorem signed_decoding_fails_at_F838_and_holding_CoolSet :
    (FetchReadings.readings [(T0Controller, 0xF838)]).T0Controller = -1992 ∧
    (FetchReadings.readings [(T0Controller, 0xF838)]).T0Controller ≠ -200 ∧
    signedScaled 0xF838 ≠ -200 ∧
    (FetchSettings.settings [(CoolSet, 0xFF38)]).CoolTemperature = -200 ∧
    (FetchHoldingRegisters.readings [(CoolSet, 0xFF38)]).CoolSet = 65336 ∧
    (FetchHoldingRegisters.readings [(CoolSet, 0xFF38)]).CoolSet ≠ signedScaled 0xFF38 ∧
    ¬ (FetchHoldingRegisters.readings [(CoolSet, 0xFF38)]).CoolSet ≤ 32767 := by
  decide

theorem raw_example_lt (r : Register) : RegMap.get [(T0Controller, 0xFF38)] r < 65536 := by
  by_cases h : r = T0Controller
  · subst h
    decide
  · have hne : (r == T0Controller) = false := by simpa using h
    simp [RegMap.get, List.lookup, hne]

/-- C4 (witness): the raw word `0xFF38` read for `T0Controller` decodes to -200. -/
theorem signed_fields_are_twos_complement_witness :
    (∀ r, RegMap.get [(T0Controller, 0xFF38)] r < 65536) ∧
    (FetchReadings.readings [(T0Controller, 0xFF38)]).T0Controller = -200 ∧
    ((FetchReadings.readings [(T0Controller, 0xFF38)]).T0Controller =
      signedScaled (RegMap.get [(T0Controller, 0xFF38)] T0Controller) ∧
    (FetchReadings.readings [(T0Controller, 0xFF38)]).T1InTakeTemp =
      signedScaled (RegMap.get [(T0Controller, 0xFF38)] T1InTakeTemp) ∧
    (FetchReadings.readings [(T0Controller, 0xFF38)]).T2InletTemp =
      signedScaled (RegMap.get [(T0Controller, 0xFF38)] T2InletTemp) ∧
    (FetchReadings.readings [(T0Controller, 0xFF38)]).T3ExhaustTemp =
      signedScaled (RegMap.get [(T0Controller, 0xFF38)] T3ExhaustTemp) ∧
    (FetchReadings.readings [(T0Controller, 0xFF38)]).T4OutletTemp =
      signedScaled (RegMap.get [(T0Controller, 0xFF38)] T4OutletTemp) ∧
    (FetchReadings.readings [(T0Controller, 0xFF38)]).T5CondTemp =
      signedScaled (RegMap.get [(T0Controller, 0xFF38)] T5CondTemp) ∧
    (FetchReadings.readings [(T0Controller, 0xFF38)]).T6EvapTemp =
      signedScaled (RegMap.get [(T0Controller, 0xFF38)] T6EvapTemp) ∧
    (FetchReadings.readings [(T0Controller, 0xFF38)]).T7InletTemp =
      signedScaled (RegMap.get [(T0Controller, 0xFF38)] T7InletTemp) ∧
    (FetchReadings.readings [(T0Controller, 0xFF38)]).T8OutdoorTemp =
      signedScaled (RegMap.get [(T0Controller, 0xFF38)] T8OutdoorTemp) ∧
    (FetchReadings.readings [(T0Controller, 0xFF38)]).T9HeaterTemp =
      signedScaled (RegMap.get [(T0Controller, 0xFF38)] T9HeaterTemp) ∧
    (FetchReadings.readings [(T0Controller, 0xFF38)]).T10ExtTemp =
      signedScaled (RegMap.get [(T0Controller, 0xFF38)] T10ExtTemp) ∧
    (FetchReadings.readings [(T0Controller, 0xFF38)]).T11HotWaterTopTemp =
      signedScaled (RegMap.get [(T0Controller, 0xFF38)] T11HotWaterTopTemp) ∧
    (FetchReadings.readings [(T0Controller, 0xFF38)]).T12HotWaterBottomTemp =
      signedScaled (RegMap.get [(T0Controller, 0xFF38)] T12HotWaterBottomTemp) ∧
    (FetchReadings.readings [(T0Controller, 0xFF38)]).T13ReturnTemp =
      signedScaled (RegMap.get [(T0Controller, 0xFF38)] T13ReturnTemp) ∧
    (FetchReadings.readings [(T0Controller, 0xFF38)]).T14SupplyTemp =
      signedScaled (RegMap.get [(T0Controller, 0xFF38)] T14SupplyTemp) ∧
    (FetchReadings.readings [(T0Controller, 0xFF38)]).T15RoomTemp =
      signedScaled (RegMap.get [(T0Controller, 0xFF38)] T15RoomTemp) ∧
    (FetchReadings.readings [(T0Controller, 0xFF38)]).RelativeHumidity =
      signedScaled (RegMap.get [(T0Controller, 0xFF38)] RelativeHumidity) ∧
    (FetchReadings.readings [(T0Controller, 0xFF38)]).CO2 =
      signedScaled (RegMap.get [(T0Controller, 0xFF38)] CO2) ∧
    (FetchReadings.readings [(T0Controller, 0xFF38)]).TemperatureSet =
      signedScaled (RegMap.get [(T0Controller, 0xFF38)] TemperatureSet) ∧
    (FetchReadings.readings [(T0Controller, 0xFF38)]).TempControl =
      signedScaled (RegMap.get [(T0Controller, 0xFF38)] TempControl) ∧
    (FetchReadings.readings [(T0Controller, 0xFF38)]).TempRoom =
      signedScaled (RegMap.get [(T0Controller, 0xFF38)] TempRoom) ∧
    (FetchReadings.readings [(T0Controller, 0xFF38)]).Efficiency =
      signedScaled (RegMap.get [(T0Controller, 0xFF38)] Efficiency) ∧
    (FetchReadings.readings [(T0Controller, 0xFF38)]).RequestedCapacity =
      signedScaled (RegMap.get [(T0Controller, 0xFF38)] RequestedCapacity) ∧
    (FetchReadings.readings [(T0Controller, 0xFF38)]).ActualCapacity =
      signedScaled (RegMap.get [(T0Controller, 0xFF38)] ActualCapacity) ∧
    (FetchReadings.readings [(T0Controller, 0xFF38)]).HeatExtSet =
      signedScaled (RegMap.get [(T0Controller, 0xFF38)] HeatExtSet) ∧
    (FetchHoldingRegisters.readings [(T0Controller, 0xFF38)]).ControlTempSet =
      signedScaled (RegMap.get [(T0Controller, 0xFF38)] ControlTempSet) ∧
    (FetchHoldingRegisters.readings [(T0Controller, 0xFF38)]).SummerTempMin =
      signedScaled (RegMap.get [(T0Controller, 0xFF38)] SummerTempMin) ∧
    (FetchHoldingRegisters.readings [(T0Controller, 0xFF38)]).WinterTempMin =
      signedScaled (RegMap.get [(T0Controller, 0xFF38)] WinterTempMin) ∧
    (FetchHoldingRegisters.readings [(T0Controller, 0xFF38)]).SummerTempMax =
      signedScaled (RegMap.get [(T0Controller, 0xFF38)] SummerTempMax) ∧
    (FetchHoldingRegisters.readings [(T0Controller, 0xFF38)]).WinterTempMax =
      signedScaled (RegMap.get [(T0Controller, 0xFF38)] WinterTempMax) ∧
    (FetchHoldingRegisters.readings [(T0Controller, 0xFF38)]).SummerTempLimit =
      signedScaled (RegMap.get [(T0Controller, 0xFF38)] SummerTempLimit) ∧
    (FetchHoldingRegisters.readings [(T0Controller, 0xFF38)]).HotWaterTempElectricT11 =
      signedScaled (RegMap.get [(T0Controller, 0xFF38)] HotWaterTempElectricT11) ∧
    (FetchHoldingRegisters.readings [(T0Controller, 0xFF38)]).HotWaterTempCompressorT12 =
      signedScaled (RegMap.get [(T0Controller, 0xFF38)] HotWaterTempCompressorT12) ∧
    (FetchSettings.settings [(T0Controller, 0xFF38)]).RequestedTemperature =
      signedScaled (RegMap.get [(T0Controller, 0xFF38)] ControlTempSet) ∧
    (FetchSettings.settings [(T0Controller, 0xFF38)]).CoolTemperature =
      signedScaled (RegMap.get [(T0Controller, 0xFF38)] CoolSet) ∧
    (∀ w, w < 65536 → int16 w = signedScaled w ∧ -32768 ≤ int16 w ∧ int16 w ≤ 32767)) :=
  ⟨raw_example_lt, by decide,
    signed_fields_are_twos_complement [(T0Controller, 0xFF38)] raw_example_lt⟩

/-! ## C5: single-register reads -/

theorem fetchValue_connected {σ : Type} (t : Transport σ) (bank : Bank) (s : σ)
    (register : Register) (hc : (t.connect s).2 = none) :
    ∃ result, (fetchValue t bank s register).outcome = Outcome.returned result ∧
      SingleReadResult (t.readRegisters bank (t.connect s).1 register 1).2 result ∧
      (fetchValue t bank s register).trace
        = [Event.connect, Event.read bank register 1, Event.close] := by
  unfold fetchValue
  rcases hcs : t.connect s with ⟨s0, e⟩
  rw [hcs] at hc
  simp only at hc
  subst hc
  simp only
  rcases hr : t.readRegisters bank s0 register 1 with ⟨s1, reply⟩
  cases reply with
  | err e =>
    refine ⟨(0, some e), rfl, ⟨?_, ?_, ?_⟩, rfl⟩
    · intro e' he
      cases he
      rfl
    · intro hi lo h
      cases h
    · intro bytes h
      cases h
  | ok bytes =>
    by_cases hlen : bytes.length = 2
    · refine ⟨(bigEndianUint16 bytes, none), by simp [hlen], ⟨?_, ?_, ?_⟩, by simp [hlen]⟩
      · intro e he
        cases he
      · intro hi lo h
        cases h
        rfl
      · intro bytes' h hne
        cases h
        exact absurd hlen hne
    · refine ⟨(0, some Error.cannotReadRegisterValue), by simp [hlen], ⟨?_, ?_, ?_⟩,
        by simp [hlen]⟩
      · intro e he
        cases he
      · intro hi lo h
        cases h
        simp at hlen
      · intro bytes' _ _
        rfl

/-- C5: when `Connect` succeeds, `FetchInputValue` and `FetchHoldingValue` return, for the reply
the transport gives to their read: the transport's error unchanged (with value 0) when the read
fails, the value `hi * 256 + lo` and no error when the payload is the two bytes `[hi, lo]`, and
value 0 with the decode error for a payload of any other length. -/
theorem single_register_read_result {σ : Type} (t : Transport σ) (s : σ) (register : Register)
    (hc : (t.connect s).2 = none) :
    (∃ result, (FetchInputValue t s register).outcome = Outcome.returned result ∧
      SingleReadResult (t.readInputRegisters (t.connect s).1 register 1).2 result) ∧
    (∃ result, (FetchHoldingValue t s register).outcome = Outcome.returned result ∧
      SingleReadResult (t.readHoldingRegisters (t.connect s).1 register 1).2 result) := by
  obtain ⟨r1, h1, h1', _⟩ := fetchValue_connected t Bank.input s register hc
  obtain ⟨r2, h2, h2', _⟩ := fetchValue_connected t Bank.holding s register hc
  exact ⟨⟨r1, h1, h1'⟩, ⟨r2, h2, h2'⟩⟩

/-- C5 (witness): a link whose first reply is the payload `[0x12, 0x34]`. -/
theorem single_register_read_result_witness :
    ((scripted [Reply.ok [0x12, 0x34]]).connect 0).2 = none ∧
    (FetchInputValue (scripted [Reply.ok [0x12, 0x34]]) 0 T0Controller).outcome
      = Outcome.returned (0x1234, none) ∧
    ((∃ result,
        (FetchInputValue (scripted [Reply.ok [0x12, 0x34]]) 0 T0Controller).outcome
          = Outcome.returned result ∧
        SingleReadResult ((scripted [Reply.ok [0x12, 0x34]]).readInputRegisters
          ((scripted [Reply.ok [0x12, 0x34]]).connect 0).1 T0Controller 1).2 result) ∧
      (∃ result,
        (FetchHoldingValue (scripted [Reply.ok [0x12, 0x34]]) 0 T0Controller).outcome
          = Outcome.returned result ∧
        SingleReadResult ((scripted [Reply.ok [0x12, 0x34]]).readHoldingRegisters
          ((scripted [Reply.ok [0x12, 0x34]]).connect 0).1 T0Controller 1).2 result)) :=
  ⟨rfl, by decide,
    single_register_read_result (scripted [Reply.ok [0x12, 0x34]]) 0 T0Controller rfl⟩

/-! ## C6: order and number of the reads of a batch -/

/-- C6: when every read of the batch succeeds with a two-byte payload, `FetchInputRegisterValues`
issues exactly one read of one register per listed register, at the listed addresses in the
listed order, and returns no error with a map that has no entry outside the list and sends
each listed register to the big-endian word of its last read. -/
theorem FetchInputRegisterValues_reads_in_order {σ : Type} (t : Transport σ) (s : σ)
    (registers : List Register) (words : List Nat) (s' : σ)
    (hc : (t.connect s).2 = none)
    (hok : ReadsOk t Bank.input (t.connect s).1 registers words s') :
    (FetchInputRegisterValues t s registers).trace
      = Event.connect :: registers.map (fun r => Event.read Bank.input r 1)
          ++ [Event.close] ∧
    words.length = registers.length ∧
    ∃ m : RegMap,
      (FetchInputRegisterValues t s registers).outcome = Outcome.returned (m, none) ∧
      (∀ r, r ∉ registers → m.lookup r = none) ∧
      (∀ before r after, registers = before ++ r :: after → r ∉ after →
        m.lookup r = words.get? before.length) := by
  unfold FetchInputRegisterValues
  rw [fetchValues_connected t Bank.input s _ hc,
    readLoop_ok t Bank.input registers _ [] words s' hok]
  refine ⟨rfl, ReadsOk_length t Bank.input _ _ words s' hok, _, rfl, ?_, ?_⟩
  · intro r hr
    rw [RegMap.lookup_setAll_zip_of_not_mem r registers words [] hr]
    rfl
  · intro before r after hregs hr
    subst hregs
    exact RegMap.lookup_setAll_zip_last r after hr before words []
      (ReadsOk_length t Bank.input _ _ words s' hok)

/-- C6 (witness): three reads, the first and the third of the same address. -/
theorem FetchInputRegisterValues_reads_in_order_witness :
    ((scripted [Reply.ok [0, 7], Reply.ok [1, 0], Reply.ok [0, 9]]).connect 0).2 = none ∧
    ReadsOk (scripted [Reply.ok [0, 7], Reply.ok [1, 0], Reply.ok [0, 9]]) Bank.input
      ((scripted [Reply.ok [0, 7], Reply.ok [1, 0], Reply.ok [0, 9]]).connect 0).1
      [T0Controller, T1InTakeTemp, T0Controller] [7, 256, 9] 3 ∧
    (FetchInputRegisterValues (scripted [Reply.ok [0, 7], Reply.ok [1, 0], Reply.ok [0, 9]]) 0
        [T0Controller, T1InTakeTemp, T0Controller]).outcome
      = Outcome.returned ([(200, 9), (201, 256)], none) ∧
    ((FetchInputRegisterValues (scripted [Reply.ok [0, 7], Reply.ok [1, 0], Reply.ok [0, 9]]) 0
        [T0Controller, T1InTakeTemp, T0Controller]).trace
      = Event.connect ::
          [T0Controller, T1InTakeTemp, T0Controller].map (fun r => Event.read Bank.input r 1)
          ++ [Event.close] ∧
    [7, 256, 9].length = [T0Controller, T1InTakeTemp, T0Controller].length ∧
    ∃ m : RegMap,
      (FetchInputRegisterValues (scripted [Reply.ok [0, 7], Reply.ok [1, 0], Reply.ok [0, 9]]) 0
        [T0Controller, T1InTakeTemp, T0Controller]).outcome = Outcome.returned (m, none) ∧
      (∀ r, r ∉ [T0Controller, T1InTakeTemp, T0Controller] → m.lookup r = none) ∧
      (∀ before r after, [T0Controller, T1InTakeTemp, T0Controller] = before ++ r :: after →
        r ∉ after → m.lookup r = [7, 256, 9].get? before.length)) :=
  ⟨rfl, ⟨0, 7, rfl, rfl, 1, 0, rfl, rfl, 0, 9, rfl, rfl, rfl⟩, by decide,
    FetchInputRegisterValues_reads_in_order
      (scripted [Reply.ok [0, 7], Reply.ok [1, 0], Reply.ok [0, 9]]) 0
      [T0Controller, T1InTakeTemp, T0Controller] [7, 256, 9] 3 rfl
      ⟨0, 7, rfl, rfl, 1, 0, rfl, rfl, 0, 9, rfl, rfl, rfl⟩⟩

/-! ## C7: a failed connect -/

theorem fetchValue_unconnected {σ : Type} (t : Transport σ) (bank : Bank) (s : σ)
    (register : Register) (e : Error) (hc : (t.connect s).2 = some e) :
    (fetchValue t bank s register).outcome = Outcome.panicked e ∧
      (fetchValue t bank s register).trace = [Event.connect] := by
  unfold fetchValue
  rcases hcs : t.connect s with ⟨s0, e0⟩
  rw [hcs] at hc
  simp only at hc
  subst hc
  exact ⟨rfl, rfl⟩

theorem fetchValues_unconnected {σ : Type} (t : Transport σ) (bank : Bank) (s : σ)
    (registers : List Register) (e : Error) (hc : (t.connect s).2 = some e) :
    (fetchValues t bank s registers).outcome = Outcome.panicked e ∧
      (fetchValues t bank s registers).trace = [Event.connect] := by
  unfold fetchValues
  rcases hcs : t.connect s with ⟨s0, e0⟩
  rw [hcs] at hc
  simp only at hc
  subst hc
  exact ⟨rfl, rfl⟩

theorem SetRegisterValues_unconnected {σ : Type} (t : Transport σ) (s : σ)
    (visited : List (Register × Nat)) (e : Error) (hc : (t.connect s).2 = some e) :
    (SetRegisterValues t s visited).outcome = Outcome.panicked e ∧
      (SetRegisterValues t s visited).trace = [Event.connect] := by
  unfold SetRegisterValues
  rcases hcs : t.connect s with ⟨s0, e0⟩
  rw [hcs] at hc
  simp only at hc
  subst hc
  exact ⟨rfl, rfl⟩

theorem snapshotOf_panicked {σ α : Type} (build : RegMap → α)
    (run : Run σ (RegMap × Option Error)) (e : Error)
    (h : run.outcome = Outcome.panicked e ∧ run.trace = [Event.connect]) :
    (snapshotOf build run).outcome = Outcome.panicked e ∧
      (snapshotOf build run).trace = [Event.connect] := by
  unfold snapshotOf
  rw [h.1]
  exact ⟨rfl, h.2⟩

/-- C7 (counterexample): on a link whose `Connect` fails, `FetchInputValue` panics; it does not
return an error value to its caller. -/
theorem FetchInputValue_panics_when_connect_fails :
    ((offline (Error.transport 1)).connect ()).2 = some (Error.transport 1) ∧
    (FetchInputValue (offline (Error.transport 1)) () T0Controller).outcome
      = Outcome.panicked (Error.transport 1) ∧
    ∀ result, (FetchInputValue (offline (Error.transport 1)) () T0Controller).outcome
      ≠ Outcome.returned result := by
  refine ⟨rfl, rfl, ?_⟩
  intro result h
  cases h

/-- C7 (amended): when the transport's `Connect` fails with `e`, every fetch and write
operation of the controller panics with `e` after the connect attempt alone: it makes no read,
write or close call and returns no value to its caller. -/
theorem operations_panic_when_connect_fails {σ : Type} (t : Transport σ) (s : σ) (e : Error)
    (register : Register) (registers : List Register) (visited : List (Register × Nat))
    (hc : (t.connect s).2 = some e) :
    ((FetchInputValue t s register).outcome = Outcome.panicked e ∧
      (FetchInputValue t s register).trace = [Event.connect]) ∧
    ((FetchHoldingValue t s register).outcome = Outcome.panicked e ∧
      (FetchHoldingValue t s register).trace = [Event.connect]) ∧
    ((FetchInputRegisterValues t s registers).outcome = Outcome.panicked e ∧
      (FetchInputRegisterValues t s registers).trace = [Event.connect]) ∧
    ((FetchHoldingValues t s registers).outcome = Outcome.panicked e ∧
      (FetchHoldingValues t s registers).trace = [Event.connect]) ∧
    ((SetRegisterValues t s visited).outcome = Outcome.panicked e ∧
      (SetRegisterValues t s visited).trace = [Event.connect]) ∧
    ((FetchHoldingRegisters t s).outcome = Outcome.panicked e ∧
      (FetchHoldingRegisters t s).trace = [Event.connect]) ∧
    ((FetchReadings t s).outcome = Outcome.panicked e ∧
      (FetchReadings t s).trace = [Event.connect]) ∧
    ((FetchErrors t s).outcome = Outcome.panicked e ∧
      (FetchErrors t s).trace = [Event.connect]) ∧
    ((FetchSettings t s).outcome = Outcome.panicked e ∧
      (FetchSettings t s).trace = [Event.connect]) :=
  ⟨fetchValue_unconnected t Bank.input s register e hc,
    fetchValue_unconnected t Bank.holding s register e hc,
    fetchValues_unconnected t Bank.input s registers e hc,
    fetchValues_unconnected t Bank.holding s registers e hc,
    SetRegisterValues_unconnected t s visited e hc,
    snapshotOf_panicked _ _ e (fetchValues_unconnected t Bank.holding s _ e hc),
    snapshotOf_panicked _ _ e (fetchValues_unconnected t Bank.input s _ e hc),
    snapshotOf_panicked _ _ e (fetchValues_unconnected t Bank.input s _ e hc),
    snapshotOf_panicked _ _ e (fetchValues_unconnected t Bank.input s _ e hc)⟩

/-- C7 (witness): the amended statement on a link whose `Connect` fails. -/
theorem operations_panic_when_connect_fails_witness :
    ((offline (Error.transport 1)).connect ()).2 = some (Error.transport 1) ∧
    (((FetchInputValue (offline (Error.transport 1)) () T0Controller).outcome
        = Outcome.panicked (Error.transport 1) ∧
      (FetchInputValue (offline (Error.transport 1)) () T0Controller).trace = [Event.connect]) ∧
    ((FetchHoldingValue (offline (Error.transport 1)) () T0Controller).outcome
        = Outcome.panicked (Error.transport 1) ∧
      (FetchHoldingValue (offline (Error.transport 1)) () T0Controller).trace = [Event.connect]) ∧
    ((FetchInputRegisterValues (offline (Error.transport 1)) () [T0Controller]).outcome
        = Outcome.panicked (Error.transport 1) ∧
      (FetchInputRegisterValues (offline (Error.transport 1)) () [T0Controller]).trace = [Event.connect]) ∧
    ((FetchHoldingValues (offline (Error.transport 1)) () [T0Controller]).outcome
        = Outcome.panicked (Error.transport 1) ∧
      (FetchHoldingValues (offline (Error.transport 1)) () [T0Controller]).trace = [Event.connect]) ∧
    ((SetRegisterValues (offline (Error.transport 1)) () [(ControlRunSet, 1)]).outcome
        = Outcome.panicked (Error.transport 1) ∧
      (SetRegisterValues (offline (Error.transport 1)) () [(ControlRunSet, 1)]).trace = [Event.connect]) ∧
    ((FetchHoldingRegisters (offline (Error.transport 1)) ()).outcome
        = Outcome.panicked (Error.transport 1) ∧
      (FetchHoldingRegisters (offline (Error.transport 1)) ()).trace = [Event.connect]) ∧
    ((FetchReadings (offline (Error.transport 1)) ()).outcome
        = Outcome.panicked (Error.transport 1) ∧
      (FetchReadings (offline (Error.transport 1)) ()).trace = [Event.connect]) ∧
    ((FetchErrors (offline (Error.transport 1)) ()).outcome
        = Outcome.panicked (Error.transport 1) ∧
      (FetchErrors (offline (Error.transport 1)) ()).trace = [Event.connect]) ∧
    ((FetchSettings (offline (Error.transport 1)) ()).outcome
        = Outcome.panicked (Error.transport 1) ∧
      (FetchSettings (offline (Error.transport 1)) ()).trace = [Event.connect])) :=
  ⟨rfl, operations_panic_when_connect_fails (offline (Error.transport 1)) ()
    (Error.transport 1) T0Controller [T0Controller] [(ControlRunSet, 1)] rfl⟩

/-! ## C8: the session is released -/

theorem readLoop_events {σ : Type} (t : Transport σ) (bank : Bank) :
    ∀ (registers : List Register) (s : σ) (m : RegMap),
      ∀ ev ∈ (readLoop t bank registers s m).2.1, ev ≠ Event.connect ∧ ev ≠ Event.close
  | [], _, _ => by simp [readLoop]
  | register :: rest, s, m => by
    intro ev hev
    rcases hr : t.readRegisters bank s register 1 with ⟨s1, reply⟩
    cases reply with
    | err e =>
      simp only [readLoop, hr, List.mem_singleton] at hev
      subst hev
      exact ⟨by simp, by simp⟩
    | ok bytes =>
      by_cases hlen : bytes.length = 2
      · simp only [readLoop, hr, hlen, if_true, List.mem_cons] at hev
        rcases hev with hev | hev
        · subst hev
          exact ⟨by simp, by simp⟩
        · exact readLoop_events t bank rest _ _ ev hev
      · simp only [readLoop, hr, hlen, if_false, List.mem_singleton] at hev
        subst hev
        exact ⟨by simp, by simp⟩

theorem writeLoop_events {σ : Type} (t : Transport σ) :
    ∀ (entries : List (Register × Nat)) (s : σ),
      ∀ ev ∈ (writeLoop t entries s).2.1, ev ≠ Event.connect ∧ ev ≠ Event.close
  | [], _ => by simp [writeLoop]
  | (register, value) :: rest, s => by
    intro ev hev
    rcases hw : t.writeSingleRegister s register value with ⟨s1, reply⟩
    cases reply with
    | err e =>
      simp only [writeLoop, hw, List.mem_singleton] at hev
      subst hev
      exact ⟨by simp, by simp⟩
    | ok bytes =>
      simp only [writeLoop, hw, List.mem_cons] at hev
      rcases hev with hev | hev
      · subst hev
        exact ⟨by simp, by simp⟩
      · exact writeLoop_events t rest _ ev hev

theorem releasedOnce_of_calls (calls : List Event)
    (h : ∀ ev ∈ calls, ev ≠ Event.connect ∧ ev ≠ Event.close) :
    ReleasedOnce (Event.connect :: calls ++ [Event.close]) := by
  have h1 : calls.count Event.connect = 0 :=
    List.count_eq_zero.mpr (fun hm => (h _ hm).1 rfl)
  have h2 : calls.count Event.close = 0 :=
    List.count_eq_zero.mpr (fun hm => (h _ hm).2 rfl)
  refine ⟨rfl, ?_, ?_, ?_⟩
  · simp [List.count_cons, List.count_append, h1]
  · simp [List.count_cons, List.count_append, h2]
  · show (Event.connect :: (calls ++ [Event.close])).getLast? = some Event.close
    rw [← List.cons_append, List.getLast?_append]
    simp

/-- C8: when `Connect` succeeds, `FetchInputRegisterValues`, `FetchHoldingValues` and
`SetRegisterValues` return (they do not panic) and leave a trace that starts with the open,
holds exactly one open and exactly one close, and ends with the close, whatever the transport
replies to the reads and writes. -/
theorem session_released_once {σ : Type} (t : Transport σ) (s : σ)
    (registers : List Register) (visited : List (Register × Nat))
    (hc : (t.connect s).2 = none) :
    (ReleasedOnce (FetchInputRegisterValues t s registers).trace ∧
      ∃ result, (FetchInputRegisterValues t s registers).outcome = Outcome.returned result) ∧
    (ReleasedOnce (FetchHoldingValues t s registers).trace ∧
      ∃ result, (FetchHoldingValues t s registers).outcome = Outcome.returned result) ∧
    (ReleasedOnce (SetRegisterValues t s visited).trace ∧
      ∃ result, (SetRegisterValues t s visited).outcome = Outcome.returned result) := by
  unfold FetchInputRegisterValues FetchHoldingValues
  rw [fetchValues_connected t Bank.input s _ hc, fetchValues_connected t Bank.holding s _ hc,
    SetRegisterValues_connected t s _ hc]
  exact ⟨⟨releasedOnce_of_calls _ (readLoop_events t Bank.input registers _ _), _, rfl⟩,
    ⟨releasedOnce_of_calls _ (readLoop_events t Bank.holding registers _ _), _, rfl⟩,
    ⟨releasedOnce_of_calls _ (writeLoop_events t visited _), _, rfl⟩⟩

/-- C8 (witness): a link whose second reply is a transport error and whose third reply, had it
been reached, is a payload of the wrong length. -/
theorem session_released_once_witness :
    ((scripted [Reply.ok [0, 7], Reply.err (Error.transport 9), Reply.ok [1]]).connect 0).2
      = none ∧
    (FetchHoldingValues (scripted [Reply.ok [0, 7], Reply.ok [1]]) 0
        [Compressor, WatherHeat, CenCircPump]).trace
      = [Event.connect, Event.read Bank.holding 109 1, Event.read Bank.holding 116 1,
          Event.close] ∧
    ((ReleasedOnce (FetchInputRegisterValues
          (scripted [Reply.ok [0, 7], Reply.err (Error.transport 9), Reply.ok [1]]) 0
          [T0Controller, T1InTakeTemp, T2InletTemp]).trace ∧
        ∃ result, (FetchInputRegisterValues
          (scripted [Reply.ok [0, 7], Reply.err (Error.transport 9), Reply.ok [1]]) 0
          [T0Controller, T1InTakeTemp, T2InletTemp]).outcome = Outcome.returned result) ∧
      (ReleasedOnce (FetchHoldingValues
          (scripted [Reply.ok [0, 7], Reply.err (Error.transport 9), Reply.ok [1]]) 0
          [T0Controller, T1InTakeTemp, T2InletTemp]).trace ∧
        ∃ result, (FetchHoldingValues
          (scripted [Reply.ok [0, 7], Reply.err (Error.transport 9), Reply.ok [1]]) 0
          [T0Controller, T1InTakeTemp, T2InletTemp]).outcome = Outcome.returned result) ∧
      (ReleasedOnce (SetRegisterValues
          (scripted [Reply.ok [0, 7], Reply.err (Error.transport 9), Reply.ok [1]]) 0
          [(ControlRunSet, 1), (ControlModeSet, 3)]).trace ∧
        ∃ result, (SetRegisterValues
          (scripted [Reply.ok [0, 7], Reply.err (Error.transport 9), Reply.ok [1]]) 0
          [(ControlRunSet, 1), (ControlModeSet, 3)]).outcome = Outcome.returned result)) :=
  ⟨rfl, by decide,
    session_released_once
      (scripted [Reply.ok [0, 7], Reply.err (Error.transport 9), Reply.ok [1]]) 0
      [T0Controller, T1InTakeTemp, T2InletTemp] [(ControlRunSet, 1), (ControlModeSet, 3)] rfl⟩

/-! ## C9: a write of several registers stops at the first failure -/

/-- C9: when `Connect` succeeds, the writes `SetRegisterValues` issues are the entries of the
map in the order visited, up to and including the first one whose write fails (all of them
when none fails), each with its own value and, the keys of a map being distinct, at most one
per register; nothing else is issued between the open and the close, so no write undoes an
earlier one.  The call returns the error of that first failure, or no error when every write
succeeds. -/
theorem SetRegisterValues_stops_at_first_failure {σ : Type} (t : Transport σ) (s : σ)
    (visited : List (Register × Nat))
    (hc : (t.connect s).2 = none)
    (hkeys : (visited.map Prod.fst).Nodup) :
    ∃ issued : List (Register × Nat),
      (SetRegisterValues t s visited).trace
        = Event.connect :: issued.map (fun p => Event.write p.1 p.2) ++ [Event.close] ∧
      issued <+: visited ∧
      (issued.map Prod.fst).Nodup ∧
      ((∃ s', WritesOk t (t.connect s).1 visited s' ∧ issued = visited ∧
          (SetRegisterValues t s visited).outcome = Outcome.returned none) ∨
        (∃ before entry after s' e, visited = before ++ entry :: after ∧
          WritesOk t (t.connect s).1 before s' ∧
          (t.writeSingleRegister s' entry.1 entry.2).2 = Reply.err e ∧
          issued = before ++ [entry] ∧
          (SetRegisterValues t s visited).outcome = Outcome.returned (some e))) := by
  rw [SetRegisterValues_connected t s visited hc]
  rcases writes_ok_or_first_failure t visited (t.connect s).1 with
    ⟨s', hok⟩ | ⟨before, entry, after, s', e, hsplit, hok, hfail⟩
  · rw [writeLoop_ok t visited _ s' hok]
    exact ⟨visited, rfl, List.prefix_refl _, hkeys, Or.inl ⟨s', hok, rfl, rfl⟩⟩
  · subst hsplit
    rw [writeLoop_fails t before entry after _ s' e hok hfail]
    have hpre : before ++ [entry] <+: before ++ entry :: after :=
      ⟨after, by simp⟩
    refine ⟨before ++ [entry], rfl, hpre, ?_,
      Or.inr ⟨before, entry, after, s', e, rfl, hok, hfail, rfl, rfl⟩⟩
    exact (hpre.sublist.map Prod.fst).nodup hkeys

/-- C9 (witness): three entries, the write of the second fails. -/
theorem SetRegisterValues_stops_at_first_failure_witness :
    ((scripted [Reply.ok [0, 1], Reply.err (Error.transport 4), Reply.ok [0, 2]]).connect 0).2
      = none ∧
    ([(ControlRunSet, 1), (ControlModeSet, 3), (ControlVentSet, 2)].map Prod.fst).Nodup ∧
    (SetRegisterValues
        (scripted [Reply.ok [0, 1], Reply.err (Error.transport 4), Reply.ok [0, 2]]) 0
        [(ControlRunSet, 1), (ControlModeSet, 3), (ControlVentSet, 2)]).trace
      = [Event.connect, Event.write 1001 1, Event.write 1002 3, Event.close] ∧
    (SetRegisterValues
        (scripted [Reply.ok [0, 1], Reply.err (Error.transport 4), Reply.ok [0, 2]]) 0
        [(ControlRunSet, 1), (ControlModeSet, 3), (ControlVentSet, 2)]).outcome
      = Outcome.returned (some (Error.transport 4)) ∧
    ∃ issued : List (Register × Nat),
      (SetRegisterValues
          (scripted [Reply.ok [0, 1], Reply.err (Error.transport 4), Reply.ok [0, 2]]) 0
          [(ControlRunSet, 1), (ControlModeSet, 3), (ControlVentSet, 2)]).trace
        = Event.connect :: issued.map (fun p => Event.write p.1 p.2) ++ [Event.close] ∧
      issued <+: [(ControlRunSet, 1), (ControlModeSet, 3), (ControlVentSet, 2)] ∧
      (issued.map Prod.fst).Nodup ∧
      ((∃ s', WritesOk
            (scripted [Reply.ok [0, 1], Reply.err (Error.transport 4), Reply.ok [0, 2]])
            ((scripted [Reply.ok [0, 1], Reply.err (Error.transport 4),
              Reply.ok [0, 2]]).connect 0).1
            [(ControlRunSet, 1), (ControlModeSet, 3), (ControlVentSet, 2)] s' ∧
          issued = [(ControlRunSet, 1), (ControlModeSet, 3), (ControlVentSet, 2)] ∧
          (SetRegisterValues
            (scripted [Reply.ok [0, 1], Reply.err (Error.transport 4), Reply.ok [0, 2]]) 0
            [(ControlRunSet, 1), (ControlModeSet, 3), (ControlVentSet, 2)]).outcome
            = Outcome.returned none) ∨
        (∃ before entry after s' e,
          [(ControlRunSet, 1), (ControlModeSet, 3), (ControlVentSet, 2)]
            = before ++ entry :: after ∧
          WritesOk
            (scripted [Reply.ok [0, 1], Reply.err (Error.transport 4), Reply.ok [0, 2]])
            ((scripted [Reply.ok [0, 1], Reply.err (Error.transport 4),
              Reply.ok [0, 2]]).connect 0).1 before s' ∧
          ((scripted [Reply.ok [0, 1], Reply.err (Error.transport 4),
            Reply.ok [0, 2]]).writeSingleRegister s' entry.1 entry.2).2 = Reply.err e ∧
          issued = before ++ [entry] ∧
          (SetRegisterValues
            (scripted [Reply.ok [0, 1], Reply.err (Error.transport 4), Reply.ok [0, 2]]) 0
            [(ControlRunSet, 1), (ControlModeSet, 3), (ControlVentSet, 2)]).outcome
            = Outcome.returned (some e))) :=
  ⟨rfl, by decide, by decide, by decide,
    SetRegisterValues_stops_at_first_failure
      (scripted [Reply.ok [0, 1], Reply.err (Error.transport 4), Reply.ok [0, 2]]) 0
      [(ControlRunSet, 1), (ControlModeSet, 3), (ControlVentSet, 2)] rfl (by decide)⟩

/-! ## C10: the bank read by `FetchSettings` -/

/-- C10 (code at the failing input): on a device whose holding bank stores the settings
`ControlModeSet = 3`, `ControlVentSet = 2`, `ControlTempSet = 2150`, `CoolVent = 1`,
`CoolSet = 2400` and whose input bank stores other words at the same addresses,
`FetchSettings` reads the five addresses from the input bank and returns the words of the
input bank; a read of the same registers with `FetchHoldingValues` returns the settings. -/
theorem FetchSettings_reads_input_bank :
    ControlModeSet ∈ holdingBank ∧ ControlVentSet ∈ holdingBank ∧
    ControlTempSet ∈ holdingBank ∧ CoolVent ∈ holdingBank ∧ CoolSet ∈ holdingBank ∧
    ControlState = ControlModeSet ∧ ControlSecInState = ControlVentSet ∧
    InletAct = CoolVent ∧ IsSummer = CoolSet ∧
    (FetchSettings device
        { input := [(1002, 7), (1003, 6), (1101, 5), (1200, 1)]
          holding := [(1002, 3), (1003, 2), (1004, 2150), (1101, 1), (1200, 2400)] }).trace
      = [Event.connect, Event.read Bank.input 1002 1, Event.read Bank.input 1003 1,
          Event.read Bank.input 1004 1, Event.read Bank.input 1101 1,
          Event.read Bank.input 1200 1, Event.close] ∧
    (FetchSettings device
        { input := [(1002, 7), (1003, 6), (1101, 5), (1200, 1)]
          holding := [(1002, 3), (1003, 2), (1004, 2150), (1101, 1), (1200, 2400)] }).outcome
      = Outcome.returned
          (some { ControlRunSet := 0, ModeSet := 7, FanSpeed := 6, RequestedTemperature := 0,
                  CoolVent := 5, CoolTemperature := 1 }, none) ∧
    (FetchHoldingValues device
        { input := [(1002, 7), (1003, 6), (1101, 5), (1200, 1)]
          holding := [(1002, 3), (1003, 2), (1004, 2150), (1101, 1), (1200, 2400)] }
        FetchSettings.registers).outcome
      = Outcome.returned
          ([(1200, 2400), (1101, 1), (1004, 2150), (1003, 2), (1002, 3)], none) := by
  decide

theorem snapshotOf_trace {σ α : Type} (build : RegMap → α)
    (run : Run σ (RegMap × Option Error)) : (snapshotOf build run).trace = run.trace := by
  unfold snapshotOf
  split <;> rfl

theorem readLoop_reads {σ : Type} (t : Transport σ) (bank : Bank) :
    ∀ (registers : List Register) (s : σ) (m : RegMap),
      ∀ ev ∈ (readLoop t bank registers s m).2.1, ∃ r, ev = Event.read bank r 1
  | [], _, _ => by simp [readLoop]
  | register :: rest, s, m => by
    intro ev hev
    rcases hr : t.readRegisters bank s register 1 with ⟨s1, reply⟩
    cases reply with
    | err e =>
      simp only [readLoop, hr, List.mem_singleton] at hev
      exact ⟨register, hev⟩
    | ok bytes =>
      by_cases hlen : bytes.length = 2
      · simp only [readLoop, hr, hlen, if_true, List.mem_cons] at hev
        rcases hev with hev | hev
        · exact ⟨register, hev⟩
        · exact readLoop_reads t bank rest _ _ ev hev
      · simp only [readLoop, hr, hlen, if_false, List.mem_singleton] at hev
        exact ⟨register, hev⟩

/-- The reads of `FetchSettings` never address the holding bank, whatever the transport does:
the five settings registers are always looked up in the input bank. -/
theorem FetchSettings_never_reads_holding_bank {σ : Type} (t : Transport σ) (s : σ) :
    ∀ ev ∈ (FetchSettings t s).trace, ∀ address quantity,
      ev ≠ Event.read Bank.holding address quantity := by
  intro ev hev address quantity
  unfold FetchSettings FetchInputRegisterValues at hev
  rw [snapshotOf_trace] at hev
  cases hc : (t.connect s).2 with
  | some e =>
    rw [(fetchValues_unconnected t Bank.input s _ e hc).2, List.mem_singleton] at hev
    subst hev
    simp
  | none =>
    rw [fetchValues_connected t Bank.input s _ hc] at hev
    simp only [List.cons_append, List.mem_cons, List.mem_append, List.mem_singleton,
      List.not_mem_nil, or_false] at hev
    rcases hev with hev | hev | hev
    · subst hev
      simp
    · obtain ⟨r, hr⟩ := readLoop_reads t Bank.input _ _ _ ev hev
      subst hr
      simp
    · subst hev
      simp

/-! ## C11: the fields of the snapshots -/

/-- The registers of each fetch list are pairwise distinct, so a successful fetch reads each
of them exactly once. -/
theorem fetch_lists_nodup :
    FetchReadings.inputRegisters.Nodup ∧ FetchHoldingRegisters.holdingRegisters.Nodup ∧
    FetchSettings.registers.Nodup ∧ FetchErrors.registers.Nodup := by
  decide

/-- Whatever the transport replies, a `Settings` value returned by `FetchSettings` has
`ControlRunSet = 0`: the struct literal never names the field. -/
theorem FetchSettings_ControlRunSet_zero {σ : Type} (t : Transport σ) (s : σ)
    (settings : Settings)
    (h : (FetchSettings t s).outcome = Outcome.returned (some settings, none)) :
    settings.ControlRunSet = 0 := by
  unfold FetchSettings snapshotOf at h
  split at h
  · cases h
  · cases h
  · simp only [Outcome.returned.injEq, Prod.mk.injEq, Option.some.injEq, and_true] at h
    rw [← h]
    rfl

/-- C11 (code at the failing input): `ControlRunSet` is a field of `Settings` and a register of
the catalog that `FetchHoldingRegisters` fetches, but it is not in the fetch list of
`FetchSettings`.  On a device that stores 1 at address 1001 in both banks and on a device that
stores 0 there, with every other word different too, both successful fetches return
`ControlRunSet = 0`: the field does not depend on the words read. -/
theorem FetchSettings_leaves_ControlRunSet_unset :
    ControlRunSet ∉ FetchSettings.registers ∧
    ControlRunSet ∈ FetchHoldingRegisters.holdingRegisters ∧
    (FetchSettings device
        { input := [(1001, 1), (1002, 7), (1003, 6), (1004, 2100), (1101, 5), (1200, 1)]
          holding := [(1001, 1), (1002, 3), (1003, 2), (1004, 2150), (1101, 1),
            (1200, 2400)] }).outcome
      = Outcome.returned
          (some { ControlRunSet := 0, ModeSet := 7, FanSpeed := 6, RequestedTemperature := 2100,
                  CoolVent := 5, CoolTemperature := 1 }, none) ∧
    (FetchSettings device
        { input := [(1001, 0), (1002, 1), (1003, 2), (1004, 1800), (1101, 3), (1200, 4)]
          holding := [(1001, 0), (1002, 2), (1003, 4), (1004, 1900), (1101, 2),
            (1200, 2600)] }).outcome
      = Outcome.returned
          (some { ControlRunSet := 0, ModeSet := 1, FanSpeed := 2, RequestedTemperature := 1800,
                  CoolVent := 3, CoolTemperature := 4 }, none) ∧
    (FetchSettings device
        { input := [(1001, 1), (1002, 7), (1003, 6), (1004, 2100), (1101, 5), (1200, 1)]
          holding := [(1001, 1), (1002, 3), (1003, 2), (1004, 2150), (1101, 1),
            (1200, 2400)] }).trace
      = [Event.connect, Event.read Bank.input 1002 1, Event.read Bank.input 1003 1,
          Event.read Bank.input 1004 1, Event.read Bank.input 1101 1,
          Event.read Bank.input 1200 1, Event.close] := by
  decide

end Nilan
